import Mathlib

/-!
# VFS_MOUNT of the HelenOS VFS server (`uspace/srv/vfs/vfs_mount.c`)

A shallow embedding of `vfs_mount` and `lookup_root`.

* The global `rootfs` is passed in and returned explicitly.
* Every call that leaves the function (IPC, registry, allocator, resolver,
  node cache, locks) is recorded as an `Event`, in program order; the results
  of those calls are read from an `Env`, one field per external function.
* `int`, `ipcarg_t` and `size_t` values are integers / naturals; the casts
  between `int` and `ipcarg_t` in the source keep the word unchanged and are
  not modelled.
* Constants that come from headers outside the sampled sources
  (`errno.h`, `vfs.h`) are the fields of `Consts`.
-/

namespace Vfs

/-- Node identity `vfs_triplet_t`: `(fs_handle, dev_handle, index)`. -/
structure vfs_triplet_t where
  fs_handle : Int
  dev_handle : Int
  index : Int
deriving DecidableEq, Repr

/-- Alternate root `vfs_pair_t`: `(fs_handle, dev_handle)`. -/
structure vfs_pair_t where
  fs_handle : Int
  dev_handle : Int
deriving DecidableEq, Repr

/-- Call identifiers `ipc_callid_t` seen by `vfs_mount`: the VFS_MOUNT call being
served (`rid`) and the data-write calls handed out by `ipc_data_write_receive`
(`callid`). The kernel never hands out the identifier of a call that is still
unanswered, so the two kinds are kept apart. -/
inductive ipc_callid_t where
  | request (rid : Nat)
  | data_write (callid : Nat)
deriving DecidableEq, Repr

/-- The part of `ipc_call_t` that `vfs_mount` reads: ARG1 carries the device handle. -/
structure ipc_call_t where
  arg1 : Int
deriving DecidableEq, Repr

/-- Accessor `IPC_GET_ARG1`. -/
def IPC_GET_ARG1 (request : ipc_call_t) : Int := request.arg1

/-- Constants of `errno.h` and `vfs.h`, which are not part of the sampled sources. -/
structure Consts where
  EOK : Int
  EINVAL : Int
  ENOENT : Int
  ENOMEM : Int
  FS_NAME_MAXLEN : Nat
  MAX_PATH_LEN : Nat
  VFS_MOUNT : Int
deriving DecidableEq, Repr

/-- The three error codes produced by `vfs_mount` itself differ from `EOK`. -/
def Consts.errors_distinct (k : Consts) : Prop :=
  k.EINVAL ≠ k.EOK ∧ k.ENOENT ≠ k.EOK ∧ k.ENOMEM ≠ k.EOK

instance (k : Consts) : Decidable k.errors_distinct := by
  unfold Consts.errors_distinct; infer_instance

/-- Outcome of one `ipc_data_write_receive`: its return value, the call it
stored in `*callid`, and the bytes the client sends. The announced `size` is
the number of those bytes; `ipc_data_write_finalize` copies them to the buffer. -/
structure DataWrite where
  accepted : Bool
  callid : Nat
  payload : List Nat
deriving DecidableEq, Repr

/-- Announced size of a data write. -/
def DataWrite.size (w : DataWrite) : Nat := w.payload.length

/-- Outcome of one `vfs_lookup_internal`: return code and the values written to
`*result` and `*size`. -/
structure LookupResult where
  rc : Int
  triplet : vfs_triplet_t
  size : Nat
deriving DecidableEq, Repr

/-- Results of the external calls made during one run of `vfs_mount`.
`vfs_node_get` takes the number of the call (0 for the first call of the run)
so that the node cache may fail on one call and succeed on another. -/
structure Env where
  name_write : DataWrite
  fs_name_to_handle : List Nat → Bool → Int
  path_write : DataWrite
  malloc : Nat → Bool
  vfs_lookup_internal : List Nat → Nat → Option vfs_pair_t → LookupResult
  vfs_node_get : Nat → vfs_triplet_t → Nat → Bool
  vfs_grab_phone : Int → Int
  rc1 : Int
  rc2 : Int

/-- Calls and global stores performed by `vfs_mount`, in program order. -/
inductive Event where
  | ipc_data_write_receive (callid : Nat) (size : Nat) (accepted : Bool)
  | ipc_data_write_finalize (callid : Nat) (size : Nat)
  | ipc_answer_0 (callid : ipc_callid_t) (retval : Int)
  | fs_name_to_handle (name : List Nat) (lock : Bool) (handle : Int)
  | malloc (size : Nat) (ok : Bool)
  | free
  | vfs_lookup_internal (path : List Nat) (len : Nat) (altroot : Option vfs_pair_t)
      (rc : Int) (result : vfs_triplet_t) (size : Nat)
  | vfs_node_get (triplet : vfs_triplet_t) (size : Nat) (ok : Bool)
  | vfs_node_put (node : vfs_triplet_t)
  | futex_down
  | futex_up
  | rwlock_write_lock
  | rwlock_write_unlock
  | store_rootfs (value : vfs_triplet_t)
  | vfs_grab_phone (fs_handle : Int) (phone : Int)
  | async_send_3 (req : Nat) (phone : Int) (method : Int) (arg1 arg2 arg3 : Int)
  | vfs_release_phone (phone : Int)
  | async_wait_for (req : Nat) (rc : Int)
deriving DecidableEq, Repr

/-- What one run of `vfs_mount` leaves behind: the calls it made and `rootfs`. -/
structure Outcome where
  trace : List Event
  rootfs : vfs_triplet_t
deriving DecidableEq, Repr

/-- The initial value of the global `rootfs`. -/
def rootfs_init : vfs_triplet_t := { fs_handle := 0, dev_handle := 0, index := 0 }

/-- The path `"/"` handed to the resolver by `lookup_root`. -/
def slash : List Nat := [47]

/-- Function `lookup_root`: resolve `"/"` with the alternate root `(fs_handle, dev_handle)`. -/
def lookup_root (env : Env) (fs_handle dev_handle : Int) : LookupResult :=
  let altroot : vfs_pair_t := { fs_handle := fs_handle, dev_handle := dev_handle }
  env.vfs_lookup_internal slash slash.length (some altroot)

/-- Sequencing: the calls `pre` are made first, then the run continues as `o`. -/
def Outcome.after (pre : List Event) (o : Outcome) : Outcome :=
  { trace := pre ++ o.trace, rootfs := o.rootfs }

/-- Function `vfs_mount`, run on the global `rootfs` with the external results `env`.
A record `{ trace := .., rootfs := .. }` is a `return`: the calls made on the way
out and the value of `rootfs` left behind. -/
def vfs_mount (k : Consts) (env : Env) (rootfs : vfs_triplet_t) (rid : Nat)
    (request : ipc_call_t) : Outcome :=
  let dev_handle := IPC_GET_ARG1 request
  -- the name of the file system
  let w1 := env.name_write
  Outcome.after [.ipc_data_write_receive w1.callid w1.size w1.accepted] <|
  if !w1.accepted then
    { trace := [.ipc_answer_0 (.data_write w1.callid) k.EINVAL,
        .ipc_answer_0 (.request rid) k.EINVAL],
      rootfs := rootfs }
  else if w1.size < 1 ∨ w1.size > k.FS_NAME_MAXLEN then
    { trace := [.ipc_answer_0 (.data_write w1.callid) k.EINVAL,
        .ipc_answer_0 (.request rid) k.EINVAL],
      rootfs := rootfs }
  else
  -- fs_name[size] = 0 makes the buffer a C string: the bytes before the first NUL
  let fs_name := w1.payload.takeWhile (fun b => b != 0)
  let fs_handle := env.fs_name_to_handle fs_name true
  Outcome.after [.ipc_data_write_finalize w1.callid w1.size,
    .fs_name_to_handle fs_name true fs_handle] <|
  if fs_handle = 0 then
    { trace := [.ipc_answer_0 (.request rid) k.ENOENT], rootfs := rootfs }
  else
  -- the mount point
  let w2 := env.path_write
  let size := w2.size
  Outcome.after [.ipc_data_write_receive w2.callid size w2.accepted] <|
  if !w2.accepted then
    { trace := [.ipc_answer_0 (.data_write w2.callid) k.EINVAL,
        .ipc_answer_0 (.request rid) k.EINVAL],
      rootfs := rootfs }
  else if size < 1 ∨ size > k.MAX_PATH_LEN then
    { trace := [.ipc_answer_0 (.data_write w2.callid) k.EINVAL,
        .ipc_answer_0 (.request rid) k.EINVAL],
      rootfs := rootfs }
  else
  let buf_ok := env.malloc size
  Outcome.after [.malloc size buf_ok] <|
  if !buf_ok then
    { trace := [.ipc_answer_0 (.data_write w2.callid) k.ENOMEM,
        .ipc_answer_0 (.request rid) k.ENOMEM],
      rootfs := rootfs }
  else
  let buf := w2.payload
  -- the root node of the file system being mounted
  let lr := lookup_root env fs_handle dev_handle
  let rc := lr.rc
  let mounted_root := lr.triplet
  let mrsz := lr.size
  Outcome.after [.ipc_data_write_finalize w2.callid size,
    .vfs_lookup_internal slash slash.length
      (some { fs_handle := fs_handle, dev_handle := dev_handle }) rc mounted_root mrsz] <|
  if rc ≠ k.EOK then
    { trace := [.free, .ipc_answer_0 (.request rid) rc], rootfs := rootfs }
  else
  let mr_node := env.vfs_node_get 0 mounted_root mrsz
  Outcome.after [.vfs_node_get mounted_root mrsz mr_node] <|
  if !mr_node then
    { trace := [.free, .ipc_answer_0 (.request rid) k.ENOMEM], rootfs := rootfs }
  else
  -- the mount point node
  Outcome.after [.futex_down] <|
  if rootfs.fs_handle ≠ 0 then
    let r := env.vfs_lookup_internal buf size none
    let rc := r.rc
    let mp := r.triplet
    let mpsz := r.size
    Outcome.after [.rwlock_write_lock, .vfs_lookup_internal buf size none rc mp mpsz] <|
    if rc ≠ k.EOK then
      { trace := [.rwlock_write_unlock, .futex_up, .vfs_node_put mounted_root, .free,
          .ipc_answer_0 (.request rid) rc],
        rootfs := rootfs }
    else
    let got := env.vfs_node_get 1 mp mpsz
    let mp_node : Option vfs_triplet_t := if got then some mp else none
    Outcome.after [.vfs_node_get mp mpsz got] <|
    if mp_node.isNone then
      { trace := [.rwlock_write_unlock, .futex_up, .vfs_node_put mounted_root, .free,
          .ipc_answer_0 (.request rid) k.ENOMEM],
        rootfs := rootfs }
    else
    -- both nodes are known: notify the server of the mount point
    let phone := env.vfs_grab_phone mp.fs_handle
    let rc1 := env.rc1
    let rc2 := env.rc2
    Outcome.after [.rwlock_write_unlock, .futex_up, .free,
      .vfs_grab_phone mp.fs_handle phone,
      .async_send_3 1 phone k.VFS_MOUNT mp.dev_handle mp.index 0,
      .async_send_3 2 phone k.VFS_MOUNT mounted_root.fs_handle mounted_root.dev_handle
        mounted_root.index,
      .vfs_release_phone phone,
      .async_wait_for 1 rc1,
      .async_wait_for 2 rc2] <|
    Outcome.after
      (if rc1 ≠ k.EOK ∨ rc2 ≠ k.EOK then
        Event.vfs_node_put mounted_root ::
          (match mp_node with
           | some n => [Event.vfs_node_put n]
           | none => [])
       else []) <|
    if rc2 = k.EOK then
      { trace := [.ipc_answer_0 (.request rid) rc1], rootfs := rootfs }
    else if rc1 = k.EOK then
      { trace := [.ipc_answer_0 (.request rid) rc2], rootfs := rootfs }
    else
      { trace := [.ipc_answer_0 (.request rid) rc1], rootfs := rootfs }
  else
    if size = 1 ∧ buf.head? = some 47 then
      { trace := [.store_rootfs mounted_root, .futex_up, .free,
          .ipc_answer_0 (.request rid) k.EOK],
        rootfs := mounted_root }
    else
      { trace := [.futex_up, .free, .vfs_node_put mounted_root,
          .ipc_answer_0 (.request rid) k.ENOENT],
        rootfs := rootfs }

/-! ## The values a run reads and the stages it reaches -/

/-- The C string left in `fs_name`: the received bytes before the first NUL. -/
def fs_name (env : Env) : List Nat := env.name_write.payload.takeWhile (fun b => b != 0)

/-- The handle the registry returns for the received name (local `fs_handle`). -/
def fs_handle (env : Env) : Int := env.fs_name_to_handle (fs_name env) true

/-- The result of `lookup_root` in this run (locals `rc`, `mounted_root`, `mrsz`). -/
def mounted (env : Env) (request : ipc_call_t) : LookupResult :=
  lookup_root env (fs_handle env) (IPC_GET_ARG1 request)

/-- The result of resolving the mount point in this run (locals `rc`, `mp`, `mpsz`). -/
def mount_point (env : Env) : LookupResult :=
  env.vfs_lookup_internal env.path_write.payload env.path_write.size none

/-- The name was received and its size passed the check of line 100. -/
def name_ok (k : Consts) (env : Env) : Prop :=
  env.name_write.accepted = true ∧
    ¬ (env.name_write.size < 1 ∨ env.name_write.size > k.FS_NAME_MAXLEN)

/-- The run got past the registry: the name is that of a registered file system. -/
def registered (k : Consts) (env : Env) : Prop :=
  name_ok k env ∧ fs_handle env ≠ 0

/-- The mount point was received and its size passed the check of line 135. -/
def path_ok (k : Consts) (env : Env) : Prop :=
  registered k env ∧ env.path_write.accepted = true ∧
    ¬ (env.path_write.size < 1 ∨ env.path_write.size > k.MAX_PATH_LEN)

/-- The run reaches `lookup_root`: the buffer for the mount point was allocated. -/
def reaches_lookup_root (k : Consts) (env : Env) : Prop :=
  path_ok k env ∧ env.malloc env.path_write.size = true

/-- The run reaches `futex_down(&rootfs_futex)`: the root of the file system being
mounted was resolved and pinned. -/
def reaches_root_check (k : Consts) (env : Env) (request : ipc_call_t) : Prop :=
  reaches_lookup_root k env ∧ (mounted env request).rc = k.EOK ∧
    env.vfs_node_get 0 (mounted env request).triplet (mounted env request).size = true

instance (k : Consts) (env : Env) : Decidable (name_ok k env) := by
  unfold name_ok; infer_instance

instance (k : Consts) (env : Env) : Decidable (registered k env) := by
  unfold registered; infer_instance

instance (k : Consts) (env : Env) : Decidable (path_ok k env) := by
  unfold path_ok; infer_instance

instance (k : Consts) (env : Env) : Decidable (reaches_lookup_root k env) := by
  unfold reaches_lookup_root; infer_instance

instance (k : Consts) (env : Env) (request : ipc_call_t) :
    Decidable (reaches_root_check k env request) := by
  unfold reaches_root_check; infer_instance

/-- Calls made up to and including the registry lookup. -/
def trace_to_registry (env : Env) : List Event :=
  [.ipc_data_write_receive env.name_write.callid env.name_write.size true,
   .ipc_data_write_finalize env.name_write.callid env.name_write.size,
   .fs_name_to_handle (fs_name env) true (fs_handle env)]

/-- Calls made up to and including the call of `lookup_root`. -/
def trace_to_lookup_root (env : Env) (request : ipc_call_t) : List Event :=
  trace_to_registry env ++
  [.ipc_data_write_receive env.path_write.callid env.path_write.size true,
   .malloc env.path_write.size true,
   .ipc_data_write_finalize env.path_write.callid env.path_write.size,
   .vfs_lookup_internal slash slash.length
     (some { fs_handle := fs_handle env, dev_handle := IPC_GET_ARG1 request })
     (mounted env request).rc (mounted env request).triplet (mounted env request).size]

/-- Calls made up to and including `futex_down(&rootfs_futex)`. -/
def trace_to_root_check (env : Env) (request : ipc_call_t) : List Event :=
  trace_to_lookup_root env request ++
  [.vfs_node_get (mounted env request).triplet (mounted env request).size true,
   .futex_down]

/-- Calls made up to and including the resolution of the mount point. -/
def trace_to_mount_point (env : Env) (request : ipc_call_t) : List Event :=
  trace_to_root_check env request ++
  [.rwlock_write_lock,
   .vfs_lookup_internal env.path_write.payload env.path_write.size none
     (mount_point env).rc (mount_point env).triplet (mount_point env).size]

/-- Calls made from pinning the mount point to the two `async_wait_for`. -/
def trace_notify (k : Consts) (env : Env) (request : ipc_call_t) : List Event :=
  let mp := (mount_point env).triplet
  let mounted_root := (mounted env request).triplet
  let phone := env.vfs_grab_phone mp.fs_handle
  [.vfs_node_get mp (mount_point env).size true,
   .rwlock_write_unlock, .futex_up, .free,
   .vfs_grab_phone mp.fs_handle phone,
   .async_send_3 1 phone k.VFS_MOUNT mp.dev_handle mp.index 0,
   .async_send_3 2 phone k.VFS_MOUNT mounted_root.fs_handle mounted_root.dev_handle
     mounted_root.index,
   .vfs_release_phone phone,
   .async_wait_for 1 env.rc1,
   .async_wait_for 2 env.rc2]

/-! ## Observations on a trace -/

/-- Codes with which the request `rid` is answered, in order. -/
def answers (rid : Nat) (tr : List Event) : List Int :=
  tr.filterMap fun e =>
    match e with
    | .ipc_answer_0 (.request r) rc => if r = rid then some rc else none
    | _ => none

/-- The event is a peer notification (`async_send_3`). -/
def Event.is_send : Event → Bool
  | .async_send_3 _ _ _ _ _ _ => true
  | _ => false

/-- The event is a resolver call (`vfs_lookup_internal`). -/
def Event.is_lookup : Event → Bool
  | .vfs_lookup_internal _ _ _ _ _ _ => true
  | _ => false

/-- The event is a resolver call that starts at the global root (no alternate root):
the resolution of the mount point. -/
def Event.is_mount_point_lookup : Event → Bool
  | .vfs_lookup_internal _ _ none _ _ _ => true
  | _ => false

/-- The event is a node-cache call (`vfs_node_get` or `vfs_node_put`). -/
def Event.is_node_op : Event → Bool
  | .vfs_node_get _ _ _ => true
  | .vfs_node_put _ => true
  | _ => false

/-- The event takes one of the two locks. -/
def Event.is_lock_acquire : Event → Bool
  | .futex_down => true
  | .rwlock_write_lock => true
  | _ => false

/-- The event consults the driver registry. -/
def Event.is_registry : Event → Bool
  | .fs_name_to_handle _ _ _ => true
  | _ => false

/-- The event stores to the global `rootfs`. -/
def Event.is_store_rootfs : Event → Bool
  | .store_rootfs _ => true
  | _ => false

/-- Number of references on node `n` acquired by a successful `vfs_node_get`. -/
def gets (n : vfs_triplet_t) (tr : List Event) : Nat :=
  tr.countP fun e =>
    match e with
    | .vfs_node_get t _ ok => ok && decide (t = n)
    | _ => false

/-- Number of references on node `n` released by `vfs_node_put`. -/
def puts (n : vfs_triplet_t) (tr : List Event) : Nat :=
  tr.countP fun e =>
    match e with
    | .vfs_node_put t => decide (t = n)
    | _ => false

/-- Net change of the reference count of node `n` over a trace. -/
def net_refs (n : vfs_triplet_t) (tr : List Event) : Int :=
  (gets n tr : Int) - (puts n tr : Int)

/-- The event awaits the result of a peer notification (`async_wait_for`). -/
def Event.is_wait : Event → Bool
  | .async_wait_for _ _ => true
  | _ => false

/-- The event answers the request being served (`ipc_answer_0(rid, ...)`). -/
def Event.is_reply : Event → Bool
  | .ipc_answer_0 (.request _) _ => true
  | _ => false

/-- The event is an operation on `rootfs_futex` or `namespace_rwlock`. -/
def Event.is_lock_op : Event → Bool
  | .futex_down => true
  | .futex_up => true
  | .rwlock_write_lock => true
  | .rwlock_write_unlock => true
  | _ => false

/-! ## Locks held along a trace -/

/-- Which of the two locks are held: `rootfs_futex`, and `namespace_rwlock` in write
mode. -/
structure Locks where
  rootfs_futex : Bool
  namespace_rwlock : Bool
deriving DecidableEq, Repr

/-- No lock is held: the state in which `vfs_mount` is entered. -/
def Locks.free : Locks := { rootfs_futex := false, namespace_rwlock := false }

/-- Effect of one call on the locks held. -/
def lock_step (s : Locks) : Event → Locks
  | .futex_down => { s with rootfs_futex := true }
  | .futex_up => { s with rootfs_futex := false }
  | .rwlock_write_lock => { s with namespace_rwlock := true }
  | .rwlock_write_unlock => { s with namespace_rwlock := false }
  | _ => s

/-- The locks held after the calls `tr`, when `s` were held before them. -/
def locks_after (s : Locks) (tr : List Event) : Locks :=
  tr.foldl lock_step s

/-- The condition `inv` holds at every point of the trace: for each call, of the locks
held when it is made and the call; and at the end, of the locks then held and `none`. -/
def at_every_point (inv : Locks → Option Event → Bool) (s : Locks) : List Event → Bool
  | [] => inv s none
  | e :: tr => inv s (some e) && at_every_point inv (lock_step s e) tr

/-- The nesting of the two locks: `namespace_rwlock` is held only while
`rootfs_futex` is; it is taken with `rootfs_futex` held and not yet held itself;
`rootfs_futex` is taken when free and released only when `namespace_rwlock` is not
held; `namespace_rwlock` is released only when held. -/
def lock_order_at (s : Locks) (e : Option Event) : Bool :=
  (!s.namespace_rwlock || s.rootfs_futex) &&
  match e with
  | some .futex_down => !s.rootfs_futex
  | some .rwlock_write_lock => s.rootfs_futex && !s.namespace_rwlock
  | some .rwlock_write_unlock => s.namespace_rwlock && s.rootfs_futex
  | some .futex_up => s.rootfs_futex && !s.namespace_rwlock
  | _ => true

/-- The locks under which resolver calls are made: the resolution of the mount point
(no alternate root) with both locks held, a walk from an alternate root (the call of
`lookup_root`) with neither. -/
def lookup_locks_at (s : Locks) (e : Option Event) : Bool :=
  match e with
  | some (.vfs_lookup_internal _ _ none _ _ _) => s.rootfs_futex && s.namespace_rwlock
  | some (.vfs_lookup_internal _ _ (some _) _ _ _) => !s.rootfs_futex && !s.namespace_rwlock
  | _ => true

/-- No lock is held when a peer notification is sent or awaited, nor at the end. -/
def notify_unlocked_at (s : Locks) (e : Option Event) : Bool :=
  match e with
  | some (.async_send_3 _ _ _ _ _ _) => !s.rootfs_futex && !s.namespace_rwlock
  | some (.async_wait_for _ _) => !s.rootfs_futex && !s.namespace_rwlock
  | none => !s.rootfs_futex && !s.namespace_rwlock
  | _ => true

/-! ## Sequences of mount requests -/

/-- One VFS_MOUNT request together with the results of the external calls of its run. -/
structure Call where
  env : Env
  rid : Nat
  request : ipc_call_t

/-- Serve the requests one after the other, each on the `rootfs` left by the previous one. -/
def run_mounts (k : Consts) : vfs_triplet_t → List Call → List Outcome
  | _, [] => []
  | r, c :: cs =>
    let o := vfs_mount k c.env r c.rid c.request
    o :: run_mounts k o.rootfs cs

/-- The value of `rootfs` after serving the requests. -/
def rootfs_after (k : Consts) : vfs_triplet_t → List Call → vfs_triplet_t
  | r, [] => r
  | r, c :: cs => rootfs_after k (vfs_mount k c.env r c.rid c.request).rootfs cs

/-- Number of runs that took the root-assignment branch (`rootfs = mounted_root`). -/
def root_assignments (os : List Outcome) : Nat :=
  os.countP fun o => o.trace.any Event.is_store_rootfs

/-- The triplet that `lookup_root` returns with `EOK` in this run names a file
system: its `fs_handle` is not 0, the value that `rootfs` uses for "no root". -/
def Call.root_named (k : Consts) (c : Call) : Prop :=
  (mounted c.env c.request).rc = k.EOK → (mounted c.env c.request).triplet.fs_handle ≠ 0

instance (k : Consts) (c : Call) : Decidable (c.root_named k) := by
  unfold Call.root_named; infer_instance

/-! ## The Mount Table of the specification -/

/-- Modelled from the spec: the Mount Table of sections 3 and 4.3, a collection of
entries `(mount point, mounted root)`. No table of this kind is declared or used in
`vfs_mount.c`. -/
abbrev MountTable := List (vfs_triplet_t × vfs_triplet_t)

/-- State of the VFS server across a mount: the global `rootfs` and the Mount Table
of the specification. -/
structure ServerState where
  rootfs : vfs_triplet_t
  mount_table : MountTable
deriving DecidableEq, Repr

/-- One run of `vfs_mount` on the server state. The only global that `vfs_mount`
assigns is `rootfs` (line 224) and every call it makes is an `Event` of its trace;
none of them operates on a mount table, so the table is handed back as it was. -/
def serve_mount (k : Consts) (env : Env) (s : ServerState) (rid : Nat)
    (request : ipc_call_t) : ServerState × List Event :=
  let o := vfs_mount k env s.rootfs rid request
  ({ rootfs := o.rootfs, mount_table := s.mount_table }, o.trace)

/-! ## Sample requests -/

/-- Sample values for the constants of `errno.h` and `vfs.h`. -/
def sample_consts : Consts :=
  { EOK := 0, EINVAL := -13, ENOENT := -1, ENOMEM := -2,
    FS_NAME_MAXLEN := 20, MAX_PATH_LEN := 65536, VFS_MOUNT := 1025 }

/-- The bytes of `"demofs"`. -/
def demofs : List Nat := [100, 101, 109, 111, 102, 115]

/-- The bytes of `"unknownfs"`. -/
def unknownfs : List Nat := [117, 110, 107, 110, 111, 119, 110, 102, 115]

/-- The bytes of `"/mnt"`. -/
def mnt : List Nat := [47, 109, 110, 116]

/-- A registry that knows the driver `"demofs"` under handle 7 and nothing else. -/
def demo_registry (name : List Nat) (_lock : Bool) : Int :=
  if name = demofs then 7 else 0

/-- A resolver for the sample tree: the root of a file system `(fs, dev)` is node 1
of that device, `"/mnt"` under the global root is node `(7, 3, 9)`, and nothing
else exists. -/
def demo_resolver (path : List Nat) (_len : Nat) (altroot : Option vfs_pair_t) :
    LookupResult :=
  match altroot with
  | some a =>
    { rc := 0, triplet := { fs_handle := a.fs_handle, dev_handle := a.dev_handle, index := 1 },
      size := 0 }
  | none =>
    if path = mnt then
      { rc := 0, triplet := { fs_handle := 7, dev_handle := 3, index := 9 }, size := 0 }
    else
      { rc := -1, triplet := { fs_handle := 0, dev_handle := 0, index := 0 }, size := 0 }

/-- The sample world: a client sending `name` and `path`, every allocation succeeding,
and the peer answering the two notifications with `rc1` and `rc2`. -/
def demo_env (name path : List Nat) (rc1 rc2 : Int) : Env :=
  { name_write := { accepted := true, callid := 1, payload := name },
    fs_name_to_handle := demo_registry,
    path_write := { accepted := true, callid := 2, payload := path },
    malloc := fun _ => true,
    vfs_lookup_internal := demo_resolver,
    vfs_node_get := fun _ _ _ => true,
    vfs_grab_phone := fun h => h,
    rc1 := rc1,
    rc2 := rc2 }

/-- A world like `demo_env demofs slash 0 0`, except that the resolver answers every
walk with `EOK` and the triplet `(0, 3, 1)`, whose `fs_handle` is 0. -/
def zero_root_env : Env :=
  { name_write := { accepted := true, callid := 1, payload := demofs },
    fs_name_to_handle := demo_registry,
    path_write := { accepted := true, callid := 2, payload := slash },
    malloc := fun _ => true,
    vfs_lookup_internal := fun _ _ _ =>
      { rc := 0, triplet := { fs_handle := 0, dev_handle := 3, index := 1 }, size := 0 },
    vfs_node_get := fun _ _ _ => true,
    vfs_grab_phone := fun h => h,
    rc1 := 0,
    rc2 := 0 }

/-- Two requests `mount(dev=3, "demofs", "/")` served in the world `zero_root_env`. -/
def zero_root_calls : List Call :=
  [{ env := zero_root_env, rid := 11, request := { arg1 := 3 } },
   { env := zero_root_env, rid := 12, request := { arg1 := 3 } }]

/-- The sample scenario: `mount(dev=3, "demofs", "/")`, then
`mount(dev=5, "demofs", "/mnt")`, then `mount(dev=6, "demofs", "/")`. -/
def demo_calls : List Call :=
  [{ env := demo_env demofs slash 0 0, rid := 11, request := { arg1 := 3 } },
   { env := demo_env demofs mnt 0 0, rid := 12, request := { arg1 := 5 } },
   { env := demo_env demofs slash 0 0, rid := 13, request := { arg1 := 6 } }]

/-- The root `(7, 3, 1)` of the sample tree. -/
def demo_root : vfs_triplet_t := { fs_handle := 7, dev_handle := 3, index := 1 }

/-- The mount point `(7, 3, 9)` of the sample scenario: `"/mnt"` under the root. -/
def demo_mp : vfs_triplet_t := { fs_handle := 7, dev_handle := 3, index := 9 }

/-- The root `(7, 5, 1)` of `"demofs"` on device 5. -/
def demo_mr : vfs_triplet_t := { fs_handle := 7, dev_handle := 5, index := 1 }

/-- A world in which `"demofs"` on device 3 is mounted again on `"/"`: the resolver
answers every walk from an alternate root `(fs, dev)` with node 1 of that device, and
`"/"` from the global root with the root `(7, 3, 1)` itself. Every allocation
succeeds and both notifications are answered `EOK`. -/
def remount_env : Env :=
  { name_write := { accepted := true, callid := 1, payload := demofs },
    fs_name_to_handle := demo_registry,
    path_write := { accepted := true, callid := 2, payload := slash },
    malloc := fun _ => true,
    vfs_lookup_internal := fun _ _ altroot =>
      match altroot with
      | some a =>
        { rc := 0,
          triplet := { fs_handle := a.fs_handle, dev_handle := a.dev_handle, index := 1 },
          size := 0 }
      | none => { rc := 0, triplet := demo_root, size := 0 },
    vfs_node_get := fun _ _ _ => true,
    vfs_grab_phone := fun h => h,
    rc1 := 0,
    rc2 := 0 }

/-- The run of `mount(dev=3, "demofs", "/")` in the world `remount_env`, under the root
`(7, 3, 1)`. -/
def remount : Outcome :=
  vfs_mount sample_consts remount_env demo_root 12 { arg1 := 3 }

/-- The run of `mount(dev=5, "demofs", "/mnt")` under the root `(7, 3, 1)`, with both
peer notifications answering `EOK`. -/
def demo_mount : Outcome :=
  vfs_mount sample_consts (demo_env demofs mnt 0 0) demo_root 12 { arg1 := 5 }

/-! ## Case analysis of a run -/

/-- Every run of `vfs_mount` follows one of thirteen paths; a property that holds of
the outcome of each path holds of `vfs_mount`. -/
theorem vfs_mount_cases (k : Consts) (env : Env) (rootfs : vfs_triplet_t) (rid : Nat)
    (request : ipc_call_t) (P : Outcome → Prop)
    (name_rejected : env.name_write.accepted = false →
      P { trace := [.ipc_data_write_receive env.name_write.callid env.name_write.size false,
            .ipc_answer_0 (.data_write env.name_write.callid) k.EINVAL,
            .ipc_answer_0 (.request rid) k.EINVAL],
          rootfs := rootfs })
    (name_size : env.name_write.accepted = true →
      (env.name_write.size < 1 ∨ env.name_write.size > k.FS_NAME_MAXLEN) →
      P { trace := [.ipc_data_write_receive env.name_write.callid env.name_write.size true,
            .ipc_answer_0 (.data_write env.name_write.callid) k.EINVAL,
            .ipc_answer_0 (.request rid) k.EINVAL],
          rootfs := rootfs })
    (unknown_fs : name_ok k env → fs_handle env = 0 →
      P { trace := trace_to_registry env ++ [.ipc_answer_0 (.request rid) k.ENOENT],
          rootfs := rootfs })
    (path_rejected : registered k env → env.path_write.accepted = false →
      P { trace := trace_to_registry env ++
            [.ipc_data_write_receive env.path_write.callid env.path_write.size false,
             .ipc_answer_0 (.data_write env.path_write.callid) k.EINVAL,
             .ipc_answer_0 (.request rid) k.EINVAL],
          rootfs := rootfs })
    (path_size : registered k env → env.path_write.accepted = true →
      (env.path_write.size < 1 ∨ env.path_write.size > k.MAX_PATH_LEN) →
      P { trace := trace_to_registry env ++
            [.ipc_data_write_receive env.path_write.callid env.path_write.size true,
             .ipc_answer_0 (.data_write env.path_write.callid) k.EINVAL,
             .ipc_answer_0 (.request rid) k.EINVAL],
          rootfs := rootfs })
    (no_buffer : path_ok k env → env.malloc env.path_write.size = false →
      P { trace := trace_to_registry env ++
            [.ipc_data_write_receive env.path_write.callid env.path_write.size true,
             .malloc env.path_write.size false,
             .ipc_answer_0 (.data_write env.path_write.callid) k.ENOMEM,
             .ipc_answer_0 (.request rid) k.ENOMEM],
          rootfs := rootfs })
    (root_lookup_failed : reaches_lookup_root k env → (mounted env request).rc ≠ k.EOK →
      P { trace := trace_to_lookup_root env request ++
            [.free, .ipc_answer_0 (.request rid) (mounted env request).rc],
          rootfs := rootfs })
    (root_node_failed : reaches_lookup_root k env → (mounted env request).rc = k.EOK →
      env.vfs_node_get 0 (mounted env request).triplet (mounted env request).size = false →
      P { trace := trace_to_lookup_root env request ++
            [.vfs_node_get (mounted env request).triplet (mounted env request).size false,
             .free, .ipc_answer_0 (.request rid) k.ENOMEM],
          rootfs := rootfs })
    (first_root : reaches_root_check k env request → rootfs.fs_handle = 0 →
      env.path_write.payload = slash →
      P { trace := trace_to_root_check env request ++
            [.store_rootfs (mounted env request).triplet, .futex_up, .free,
             .ipc_answer_0 (.request rid) k.EOK],
          rootfs := (mounted env request).triplet })
    (no_root : reaches_root_check k env request → rootfs.fs_handle = 0 →
      env.path_write.payload ≠ slash →
      P { trace := trace_to_root_check env request ++
            [.futex_up, .free, .vfs_node_put (mounted env request).triplet,
             .ipc_answer_0 (.request rid) k.ENOENT],
          rootfs := rootfs })
    (mp_lookup_failed : reaches_root_check k env request → rootfs.fs_handle ≠ 0 →
      (mount_point env).rc ≠ k.EOK →
      P { trace := trace_to_mount_point env request ++
            [.rwlock_write_unlock, .futex_up, .vfs_node_put (mounted env request).triplet,
             .free, .ipc_answer_0 (.request rid) (mount_point env).rc],
          rootfs := rootfs })
    (mp_node_failed : reaches_root_check k env request → rootfs.fs_handle ≠ 0 →
      (mount_point env).rc = k.EOK →
      env.vfs_node_get 1 (mount_point env).triplet (mount_point env).size = false →
      P { trace := trace_to_mount_point env request ++
            [.vfs_node_get (mount_point env).triplet (mount_point env).size false,
             .rwlock_write_unlock, .futex_up, .vfs_node_put (mounted env request).triplet,
             .free, .ipc_answer_0 (.request rid) k.ENOMEM],
          rootfs := rootfs })
    (notified : reaches_root_check k env request → rootfs.fs_handle ≠ 0 →
      (mount_point env).rc = k.EOK →
      env.vfs_node_get 1 (mount_point env).triplet (mount_point env).size = true →
      P { trace := trace_to_mount_point env request ++ trace_notify k env request ++
            (if env.rc1 ≠ k.EOK ∨ env.rc2 ≠ k.EOK then
              [.vfs_node_put (mounted env request).triplet,
               .vfs_node_put (mount_point env).triplet]
             else []) ++
            [.ipc_answer_0 (.request rid)
              (if env.rc2 = k.EOK then env.rc1 else if env.rc1 = k.EOK then env.rc2
               else env.rc1)],
          rootfs := rootfs }) :
    P (vfs_mount k env rootfs rid request) := by
  unfold vfs_mount
  have e0 : List.takeWhile (fun b => b != 0) env.name_write.payload = fs_name env := rfl
  have e1 : env.fs_name_to_handle (fs_name env) true = fs_handle env := rfl
  have e2 : lookup_root env (fs_handle env) (IPC_GET_ARG1 request) = mounted env request := rfl
  have e3 : env.vfs_lookup_internal env.path_write.payload env.path_write.size none =
      mount_point env := rfl
  simp only [e0, e1, e2, e3]
  by_cases h1 : env.name_write.accepted = true
  swap
  · have h1f : env.name_write.accepted = false := by simpa using h1
    have := name_rejected h1f
    simpa only [h1f, Bool.not_false, if_true, Outcome.after, List.cons_append,
      List.nil_append] using this
  simp only [h1, Bool.not_true, Bool.false_eq_true, if_false]
  by_cases h2 : env.name_write.size < 1 ∨ env.name_write.size > k.FS_NAME_MAXLEN
  · rw [if_pos h2]
    exact name_size h1 h2
  rw [if_neg h2]
  have hn : name_ok k env := ⟨h1, h2⟩
  by_cases h3 : fs_handle env = 0
  · rw [if_pos h3]
    exact unknown_fs hn h3
  rw [if_neg h3]
  have hr : registered k env := ⟨hn, h3⟩
  by_cases h4 : env.path_write.accepted = true
  swap
  · have h4f : env.path_write.accepted = false := by simpa using h4
    have := path_rejected hr h4f
    simpa only [h4f, Bool.not_false, if_true, Outcome.after, List.cons_append,
      List.nil_append, List.append_assoc, trace_to_registry] using this
  simp only [h4, Bool.not_true, Bool.false_eq_true, if_false]
  by_cases h5 : env.path_write.size < 1 ∨ env.path_write.size > k.MAX_PATH_LEN
  · rw [if_pos h5]
    exact path_size hr h4 h5
  rw [if_neg h5]
  have hp : path_ok k env := ⟨hr, h4, h5⟩
  by_cases h6 : env.malloc env.path_write.size = true
  swap
  · have h6f : env.malloc env.path_write.size = false := by simpa using h6
    have := no_buffer hp h6f
    simpa only [h6f, Bool.not_false, if_true, Outcome.after, List.cons_append,
      List.nil_append, List.append_assoc, trace_to_registry] using this
  simp only [h6, Bool.not_true, Bool.false_eq_true, if_false]
  have hl : reaches_lookup_root k env := ⟨hp, h6⟩
  by_cases h7 : (mounted env request).rc = k.EOK
  swap
  · rw [if_pos h7]
    exact root_lookup_failed hl h7
  rw [if_neg (not_not.mpr h7)]
  by_cases h8 : env.vfs_node_get 0 (mounted env request).triplet (mounted env request).size
      = true
  swap
  · have h8f : env.vfs_node_get 0 (mounted env request).triplet (mounted env request).size
        = false := by simpa using h8
    have := root_node_failed hl h7 h8f
    simpa only [h8f, Bool.not_false, if_true, Outcome.after, List.cons_append,
      List.nil_append, List.append_assoc, trace_to_registry, trace_to_lookup_root] using this
  simp only [h8, Bool.not_true, Bool.false_eq_true, if_false]
  have hc : reaches_root_check k env request := ⟨hl, h7, h8⟩
  by_cases h9 : rootfs.fs_handle = 0
  · rw [if_neg (not_not.mpr h9)]
    by_cases h10 : env.path_write.size = 1 ∧ env.path_write.payload.head? = some 47
    · rw [if_pos h10]
      have hs : env.path_write.payload = slash := by
        obtain ⟨ha, hb⟩ := h10
        unfold DataWrite.size at ha
        match hq : env.path_write.payload, ha, hb with
        | [x], _, hb => simp at hb; simp [slash, hb]
      exact first_root hc h9 hs
    · rw [if_neg h10]
      have hs : env.path_write.payload ≠ slash := by
        intro hq
        apply h10
        simp [DataWrite.size, hq, slash]
      exact no_root hc h9 hs
  rw [if_pos h9]
  by_cases h11 : (mount_point env).rc = k.EOK
  swap
  · rw [if_pos h11]
    exact mp_lookup_failed hc h9 h11
  rw [if_neg (not_not.mpr h11)]
  by_cases h12 : env.vfs_node_get 1 (mount_point env).triplet (mount_point env).size = true
  swap
  · have h12f : env.vfs_node_get 1 (mount_point env).triplet (mount_point env).size
        = false := by simpa using h12
    have := mp_node_failed hc h9 h11 h12f
    simpa only [h12f, Bool.false_eq_true, if_false, Option.isNone_none, if_true,
      Outcome.after, List.cons_append,
      List.nil_append, List.append_assoc, trace_to_registry, trace_to_lookup_root,
      trace_to_root_check, trace_to_mount_point] using this
  simp only [h12, if_true, Option.isNone_some, Bool.false_eq_true, if_false]
  have hfin : (if env.rc2 = k.EOK then
        ({ trace := [Event.ipc_answer_0 (.request rid) env.rc1], rootfs := rootfs } : Outcome)
      else if env.rc1 = k.EOK then
        { trace := [Event.ipc_answer_0 (.request rid) env.rc2], rootfs := rootfs }
      else { trace := [Event.ipc_answer_0 (.request rid) env.rc1], rootfs := rootfs }) =
      { trace := [Event.ipc_answer_0 (.request rid)
          (if env.rc2 = k.EOK then env.rc1 else if env.rc1 = k.EOK then env.rc2
           else env.rc1)],
        rootfs := rootfs } := by
    by_cases a : env.rc2 = k.EOK
    · simp only [a, if_true]
    · by_cases b : env.rc1 = k.EOK
      · simp only [a, b, if_true, if_false]
      · simp only [a, b, if_false]
  rw [hfin]
  have := notified hc h9 h11 h12
  simpa only [Outcome.after, List.cons_append, List.nil_append, List.append_assoc,
    trace_to_registry, trace_to_lookup_root, trace_to_root_check, trace_to_mount_point,
    trace_notify] using this

/-! ## The first mount and the global root -/

/-- C1. First root mount: in a run with the global root unset and the received path
exactly `"/"`, in which `lookup_root` returned `EOK` with the triplet `mounted_root`
and `vfs_node_get` on it succeeded, `rootfs` becomes `mounted_root`, the request is
answered `EOK` (once), no peer notification is sent, the only resolver call is the one
of `lookup_root`, and the only node-cache call is the `vfs_node_get` of the mounted
root (no mount point is resolved or pinned). -/
theorem first_root_mount (k : Consts) (env : Env) (rootfs : vfs_triplet_t) (rid : Nat)
    (request : ipc_call_t) (mounted_root : vfs_triplet_t) (mrsz : Nat)
    (hroot : rootfs.fs_handle = 0)
    (hpath : env.path_write.payload = slash)
    (hlookup : Event.vfs_lookup_internal slash slash.length
        (some { fs_handle := fs_handle env, dev_handle := IPC_GET_ARG1 request })
        k.EOK mounted_root mrsz ∈ (vfs_mount k env rootfs rid request).trace)
    (hget : Event.vfs_node_get mounted_root mrsz true ∈
        (vfs_mount k env rootfs rid request).trace) :
    (vfs_mount k env rootfs rid request).rootfs = mounted_root ∧
    answers rid (vfs_mount k env rootfs rid request).trace = [k.EOK] ∧
    (∀ e ∈ (vfs_mount k env rootfs rid request).trace, e.is_send = false) ∧
    (vfs_mount k env rootfs rid request).trace.filter Event.is_lookup =
      [.vfs_lookup_internal slash slash.length
        (some { fs_handle := fs_handle env, dev_handle := IPC_GET_ARG1 request })
        k.EOK mounted_root mrsz] ∧
    (vfs_mount k env rootfs rid request).trace.filter Event.is_node_op =
      [.vfs_node_get mounted_root mrsz true] := by
  revert hlookup hget
  refine vfs_mount_cases k env rootfs rid request
    (fun o => Event.vfs_lookup_internal slash slash.length
        (some { fs_handle := fs_handle env, dev_handle := IPC_GET_ARG1 request })
        k.EOK mounted_root mrsz ∈ o.trace →
      Event.vfs_node_get mounted_root mrsz true ∈ o.trace →
      o.rootfs = mounted_root ∧ answers rid o.trace = [k.EOK] ∧
      (∀ e ∈ o.trace, e.is_send = false) ∧
      o.trace.filter Event.is_lookup =
        [.vfs_lookup_internal slash slash.length
          (some { fs_handle := fs_handle env, dev_handle := IPC_GET_ARG1 request })
          k.EOK mounted_root mrsz] ∧
      o.trace.filter Event.is_node_op = [.vfs_node_get mounted_root mrsz true])
    ?_ ?_ ?_ ?_ ?_ ?_ ?_ ?_ ?_ ?_ ?_ ?_ ?_
  all_goals intros
  all_goals simp_all [trace_to_registry, trace_to_lookup_root, trace_to_root_check,
    trace_to_mount_point, trace_notify, answers, Event.is_send, Event.is_lookup,
    Event.is_node_op]

/-- Witness for C1: the first request of the sample scenario,
`mount(dev=3, "demofs", "/")` with no root set. -/
theorem first_root_mount_witness :
    (vfs_mount sample_consts (demo_env demofs slash 0 0) rootfs_init 11 { arg1 := 3 }).rootfs
      = demo_root ∧
    answers 11
      (vfs_mount sample_consts (demo_env demofs slash 0 0) rootfs_init 11 { arg1 := 3 }).trace
      = [sample_consts.EOK] :=
  have h := first_root_mount sample_consts (demo_env demofs slash 0 0) rootfs_init 11
    { arg1 := 3 } demo_root 0 (by decide) (by decide) (by decide) (by decide)
  ⟨h.1, h.2.1⟩

/-- C2. Mount before a root exists at a non-root path: a run that reaches the root
check (`futex_down(&rootfs_futex)`) with the global root unset and a path that is not
exactly `"/"` answers `ENOENT`, leaves `rootfs` as it was, and its only node-cache
calls are the `vfs_node_get` of the would-be mounted root followed by one
`vfs_node_put` of it, so that the reference count of every node is unchanged. -/
theorem mount_before_root (k : Consts) (env : Env) (rootfs : vfs_triplet_t) (rid : Nat)
    (request : ipc_call_t)
    (hreach : Event.futex_down ∈ (vfs_mount k env rootfs rid request).trace)
    (hroot : rootfs.fs_handle = 0)
    (hpath : env.path_write.size ≠ 1 ∨ env.path_write.payload.head? ≠ some 47) :
    answers rid (vfs_mount k env rootfs rid request).trace = [k.ENOENT] ∧
    (vfs_mount k env rootfs rid request).rootfs = rootfs ∧
    (vfs_mount k env rootfs rid request).trace.filter Event.is_node_op =
      [.vfs_node_get (mounted env request).triplet (mounted env request).size true,
       .vfs_node_put (mounted env request).triplet] ∧
    (∀ n, net_refs n (vfs_mount k env rootfs rid request).trace = 0) := by
  have hne : env.path_write.payload ≠ slash := by
    intro hq
    rcases hpath with h | h
    · exact h (by simp [DataWrite.size, hq, slash])
    · exact h (by simp [hq, slash])
  revert hreach
  refine vfs_mount_cases k env rootfs rid request
    (fun o => Event.futex_down ∈ o.trace →
      answers rid o.trace = [k.ENOENT] ∧ o.rootfs = rootfs ∧
      o.trace.filter Event.is_node_op =
        [.vfs_node_get (mounted env request).triplet (mounted env request).size true,
         .vfs_node_put (mounted env request).triplet] ∧
      (∀ n, net_refs n o.trace = 0))
    ?_ ?_ ?_ ?_ ?_ ?_ ?_ ?_ ?_ ?_ ?_ ?_ ?_
  all_goals intros
  all_goals simp_all [trace_to_registry, trace_to_lookup_root, trace_to_root_check,
    trace_to_mount_point, trace_notify, answers, Event.is_node_op, net_refs, gets, puts,
    List.countP_cons]

/-- Witness for C2: `mount(dev=5, "demofs", "/mnt")` with no root set. -/
theorem mount_before_root_witness :
    answers 11
      (vfs_mount sample_consts (demo_env demofs mnt 0 0) rootfs_init 11 { arg1 := 5 }).trace
      = [sample_consts.ENOENT] ∧
    (vfs_mount sample_consts (demo_env demofs mnt 0 0) rootfs_init 11 { arg1 := 5 }).rootfs
      = rootfs_init :=
  have h := mount_before_root sample_consts (demo_env demofs mnt 0 0) rootfs_init 11
    { arg1 := 5 } (by decide) (by decide) (by decide)
  ⟨h.1, h.2.1⟩

/-- A run that starts with the global root set leaves `rootfs` as it was and
performs no store to it. -/
theorem vfs_mount_root_set (k : Consts) (env : Env) (rootfs : vfs_triplet_t) (rid : Nat)
    (request : ipc_call_t) (hset : rootfs.fs_handle ≠ 0) :
    (vfs_mount k env rootfs rid request).rootfs = rootfs ∧
    ∀ e ∈ (vfs_mount k env rootfs rid request).trace, e.is_store_rootfs = false := by
  refine vfs_mount_cases k env rootfs rid request
    (fun o => o.rootfs = rootfs ∧ ∀ e ∈ o.trace, e.is_store_rootfs = false)
    ?_ ?_ ?_ ?_ ?_ ?_ ?_ ?_ ?_ ?_ ?_ ?_ ?_
  all_goals intros
  on_goal 13 => by_cases hrc1 : env.rc1 = k.EOK <;> by_cases hrc2 : env.rc2 = k.EOK
  all_goals simp_all [trace_to_registry, trace_to_lookup_root, trace_to_root_check,
    trace_to_mount_point, trace_notify, Event.is_store_rootfs]

/-- C3. The root is never unset or replaced by a mount: whatever the external calls
return, a run that starts with the global root set (`rootfs.fs_handle ≠ 0`) ends with
`rootfs` equal, field by field, to its value before the call, and performs no store
to `rootfs`. -/
theorem root_never_replaced (k : Consts) (env : Env) (rootfs : vfs_triplet_t) (rid : Nat)
    (request : ipc_call_t) (hset : rootfs.fs_handle ≠ 0) :
    (vfs_mount k env rootfs rid request).rootfs.fs_handle = rootfs.fs_handle ∧
    (vfs_mount k env rootfs rid request).rootfs.dev_handle = rootfs.dev_handle ∧
    (vfs_mount k env rootfs rid request).rootfs.index = rootfs.index ∧
    ∀ e ∈ (vfs_mount k env rootfs rid request).trace, e.is_store_rootfs = false := by
  obtain ⟨h, hs⟩ := vfs_mount_root_set k env rootfs rid request hset
  rw [h]
  exact ⟨rfl, rfl, rfl, hs⟩

/-- Witness for C3: mounting `"/"` again when the root `(7, 3, 1)` is already set. -/
theorem root_never_replaced_witness :
    demo_root.fs_handle ≠ 0 ∧
    (vfs_mount sample_consts (demo_env demofs slash 0 0) demo_root 11
      { arg1 := 4 }).rootfs.fs_handle = demo_root.fs_handle :=
  ⟨by decide,
   (root_never_replaced sample_consts (demo_env demofs slash 0 0) demo_root 11
     { arg1 := 4 } (by decide)).1⟩

/-! ## The global root over a sequence of mounts -/

/-- A run either performs no store to `rootfs` and leaves it as it was, or it started
with the root unset, `lookup_root` returned `EOK`, and `rootfs` is now the triplet
that `lookup_root` returned. -/
theorem vfs_mount_store (k : Consts) (env : Env) (rootfs : vfs_triplet_t) (rid : Nat)
    (request : ipc_call_t) :
    ((vfs_mount k env rootfs rid request).trace.any Event.is_store_rootfs = false ∧
      (vfs_mount k env rootfs rid request).rootfs = rootfs) ∨
    ((vfs_mount k env rootfs rid request).trace.any Event.is_store_rootfs = true ∧
      rootfs.fs_handle = 0 ∧ (mounted env request).rc = k.EOK ∧
      (vfs_mount k env rootfs rid request).rootfs = (mounted env request).triplet) := by
  refine vfs_mount_cases k env rootfs rid request
    (fun o => (o.trace.any Event.is_store_rootfs = false ∧ o.rootfs = rootfs) ∨
      (o.trace.any Event.is_store_rootfs = true ∧ rootfs.fs_handle = 0 ∧
        (mounted env request).rc = k.EOK ∧ o.rootfs = (mounted env request).triplet))
    ?_ ?_ ?_ ?_ ?_ ?_ ?_ ?_ ?_ ?_ ?_ ?_ ?_
  all_goals intros
  on_goal 13 => by_cases hrc1 : env.rc1 = k.EOK <;> by_cases hrc2 : env.rc2 = k.EOK
  all_goals simp_all [trace_to_registry, trace_to_lookup_root, trace_to_root_check,
    trace_to_mount_point, trace_notify, Event.is_store_rootfs, reaches_root_check]

/-- A run that starts with the root set and reaches the root check takes the
naming-tree lock and resolves the mount point from the global root. -/
theorem vfs_mount_resolves_under_root (k : Consts) (env : Env) (rootfs : vfs_triplet_t)
    (rid : Nat) (request : ipc_call_t) (hset : rootfs.fs_handle ≠ 0)
    (hreach : Event.futex_down ∈ (vfs_mount k env rootfs rid request).trace) :
    Event.rwlock_write_lock ∈ (vfs_mount k env rootfs rid request).trace ∧
    (vfs_mount k env rootfs rid request).trace.any Event.is_mount_point_lookup = true := by
  revert hreach
  refine vfs_mount_cases k env rootfs rid request
    (fun o => Event.futex_down ∈ o.trace →
      Event.rwlock_write_lock ∈ o.trace ∧ o.trace.any Event.is_mount_point_lookup = true)
    ?_ ?_ ?_ ?_ ?_ ?_ ?_ ?_ ?_ ?_ ?_ ?_ ?_
  all_goals intros
  all_goals simp_all [trace_to_registry, trace_to_lookup_root, trace_to_root_check,
    trace_to_mount_point, trace_notify, Event.is_mount_point_lookup]

/-- With distinct error codes, a mount of `"/"` that is answered `EOK` while the root
is unset stores the triplet returned by `lookup_root` to `rootfs`. -/
theorem vfs_mount_slash_ok (k : Consts) (hk : k.errors_distinct) (env : Env)
    (rootfs : vfs_triplet_t) (rid : Nat) (request : ipc_call_t)
    (hroot : rootfs.fs_handle = 0)
    (hok : k.EOK ∈ answers rid (vfs_mount k env rootfs rid request).trace) :
    (mounted env request).rc = k.EOK ∧
    (vfs_mount k env rootfs rid request).rootfs = (mounted env request).triplet := by
  obtain ⟨hk1, hk2, hk3⟩ := hk
  have hk1s : k.EOK ≠ k.EINVAL := fun h => hk1 h.symm
  have hk2s : k.EOK ≠ k.ENOENT := fun h => hk2 h.symm
  have hk3s : k.EOK ≠ k.ENOMEM := fun h => hk3 h.symm
  revert hok
  refine vfs_mount_cases k env rootfs rid request
    (fun o => k.EOK ∈ answers rid o.trace →
      (mounted env request).rc = k.EOK ∧ o.rootfs = (mounted env request).triplet)
    ?_ ?_ ?_ ?_ ?_ ?_ ?_ ?_ ?_ ?_ ?_ ?_ ?_
  all_goals intros
  all_goals simp_all [trace_to_registry, trace_to_lookup_root, trace_to_root_check,
    trace_to_mount_point, trace_notify, answers, reaches_root_check]
  rename_i hne
  exact fun h => absurd h.symm hne

/-- Serving a list of requests in two parts. -/
theorem run_mounts_append (k : Consts) (r : vfs_triplet_t) (pre post : List Call) :
    run_mounts k r (pre ++ post) =
      run_mounts k r pre ++ run_mounts k (rootfs_after k r pre) post := by
  induction pre generalizing r with
  | nil => rfl
  | cons c cs ih => simp [run_mounts, rootfs_after, ih]

/-- The value of `rootfs` after one more request. -/
theorem rootfs_after_snoc (k : Consts) (r : vfs_triplet_t) (pre : List Call) (c : Call) :
    rootfs_after k r (pre ++ [c]) =
      (vfs_mount k c.env (rootfs_after k r pre) c.rid c.request).rootfs := by
  induction pre generalizing r with
  | nil => rfl
  | cons d ds ih => simp [rootfs_after, ih]

/-- The value of `rootfs` after serving a list of requests in two parts. -/
theorem rootfs_after_append (k : Consts) (r : vfs_triplet_t) (pre post : List Call) :
    rootfs_after k r (pre ++ post) = rootfs_after k (rootfs_after k r pre) post := by
  induction pre generalizing r with
  | nil => rfl
  | cons c cs ih => simp [rootfs_after, ih]

/-- Once the root is set, no later run of a sequence changes or stores `rootfs`. -/
theorem run_mounts_root_set (k : Consts) (r : vfs_triplet_t) (hr : r.fs_handle ≠ 0)
    (cs : List Call) :
    rootfs_after k r cs = r ∧
    ∀ o ∈ run_mounts k r cs, o.rootfs = r ∧ ∀ e ∈ o.trace, e.is_store_rootfs = false := by
  induction cs with
  | nil => simp [rootfs_after, run_mounts]
  | cons c cs ih =>
    obtain ⟨h1, h2⟩ := vfs_mount_root_set k c.env r c.rid c.request hr
    simp only [rootfs_after, run_mounts, h1, List.mem_cons]
    refine ⟨ih.1, ?_⟩
    rintro o (rfl | ho)
    · exact ⟨h1, h2⟩
    · exact ih.2 o ho

/-- Every outcome of a sequence started with the root set is a run of `vfs_mount` on
a set root. -/
theorem run_mounts_mem (k : Consts) (r : vfs_triplet_t) (cs : List Call) (o : Outcome)
    (ho : o ∈ run_mounts k r cs) (hr : r.fs_handle ≠ 0) :
    ∃ (c : Call) (r1 : vfs_triplet_t), r1.fs_handle ≠ 0 ∧
      o = vfs_mount k c.env r1 c.rid c.request := by
  induction cs with
  | nil => simp [run_mounts] at ho
  | cons c cs ih =>
    simp only [run_mounts, List.mem_cons] at ho
    rcases ho with rfl | ho
    · exact ⟨c, r, hr, rfl⟩
    · rw [(vfs_mount_root_set k c.env r c.rid c.request hr).1] at ho
      exact ih ho

/-- From any starting value of `rootfs`, at most one run of a sequence stores to
`rootfs`, provided each triplet returned by `lookup_root` names a file system. -/
theorem root_assignments_le_one (k : Consts) (cs : List Call)
    (hres : ∀ c ∈ cs, c.root_named k) (r : vfs_triplet_t) :
    root_assignments (run_mounts k r cs) ≤ 1 := by
  induction cs generalizing r with
  | nil => simp [root_assignments, run_mounts]
  | cons c cs ih =>
    have hc : c.root_named k := hres c (List.mem_cons_self _ _)
    have hcs : ∀ d ∈ cs, d.root_named k := fun d hd => hres d (List.mem_cons_of_mem _ hd)
    rcases vfs_mount_store k c.env r c.rid c.request with ⟨hno, hsame⟩ | ⟨hst, _, hrc, hnew⟩
    · have := ih hcs r
      simpa [root_assignments, run_mounts, List.countP_cons, hno, hsame] using this
    · have hset : (vfs_mount k c.env r c.rid c.request).rootfs.fs_handle ≠ 0 := by
        rw [hnew]
        exact hc hrc
      have hzero : root_assignments
          (run_mounts k (vfs_mount k c.env r c.rid c.request).rootfs cs) = 0 := by
        unfold root_assignments
        rw [List.countP_eq_zero]
        intro o ho
        have := (run_mounts_root_set k _ hset cs).2 o ho
        simpa [List.any_eq_true] using this.2
      simp only [root_assignments] at hzero
      simp [root_assignments, run_mounts, List.countP_cons, hst, hzero]

/-- C4, as stated, fails: in `zero_root_calls` the resolver answers the root lookup
with `EOK` and a triplet whose `fs_handle` is 0. The first `mount "/"` is answered
`EOK` and stores that triplet, `rootfs.fs_handle` is still 0, and the second request
finds the root unset and takes the root-assignment branch again: two runs assign
`rootfs`. -/
theorem root_set_once_counterexample :
    root_assignments (run_mounts sample_consts rootfs_init zero_root_calls) = 2 ∧
    (run_mounts sample_consts rootfs_init zero_root_calls).map
      (fun o => o.trace.filter Event.is_store_rootfs) =
      [[.store_rootfs { fs_handle := 0, dev_handle := 3, index := 1 }],
       [.store_rootfs { fs_handle := 0, dev_handle := 3, index := 1 }]] ∧
    answers 11 (vfs_mount sample_consts zero_root_env rootfs_init 11 { arg1 := 3 }).trace =
      [sample_consts.EOK] ∧
    (vfs_mount sample_consts zero_root_env rootfs_init 11 { arg1 := 3 }).rootfs.fs_handle
      = 0 := by
  decide

/-- C4, amended. The global root is set at most once: take any sequence of requests
served from the initial state in which every triplet that `lookup_root` returns with
`EOK` has a non-zero `fs_handle`, and let `EINVAL`, `ENOENT` and `ENOMEM` differ from
`EOK`. Then at most one run takes the root-assignment branch; and after a request
that is answered `EOK` (the first successful mount of `"/"` is one) the root is set,
every later run leaves `rootfs` unchanged, performs no store to it and, if it reaches
the root check, takes the naming-tree lock and resolves its path from the global
root. -/
theorem root_set_once (k : Consts) (hk : k.errors_distinct) (cs : List Call)
    (hres : ∀ c ∈ cs, c.root_named k) :
    root_assignments (run_mounts k rootfs_init cs) ≤ 1 ∧
    ∀ pre c post, cs = pre ++ c :: post →
      k.EOK ∈ answers c.rid
        (vfs_mount k c.env (rootfs_after k rootfs_init pre) c.rid c.request).trace →
      (rootfs_after k rootfs_init (pre ++ [c])).fs_handle ≠ 0 ∧
      run_mounts k rootfs_init cs =
        run_mounts k rootfs_init (pre ++ [c]) ++
          run_mounts k (rootfs_after k rootfs_init (pre ++ [c])) post ∧
      rootfs_after k rootfs_init cs = rootfs_after k rootfs_init (pre ++ [c]) ∧
      ∀ o ∈ run_mounts k (rootfs_after k rootfs_init (pre ++ [c])) post,
        o.rootfs = rootfs_after k rootfs_init (pre ++ [c]) ∧
        (∀ e ∈ o.trace, e.is_store_rootfs = false) ∧
        (Event.futex_down ∈ o.trace →
          Event.rwlock_write_lock ∈ o.trace ∧
          o.trace.any Event.is_mount_point_lookup = true) := by
  refine ⟨root_assignments_le_one k cs hres rootfs_init, ?_⟩
  intro pre c post hcs hok
  have hc : c.root_named k := hres c (by simp [hcs])
  have hset : (rootfs_after k rootfs_init (pre ++ [c])).fs_handle ≠ 0 := by
    rw [rootfs_after_snoc]
    by_cases h0 : (rootfs_after k rootfs_init pre).fs_handle = 0
    · obtain ⟨hrc, hnew⟩ := vfs_mount_slash_ok k hk c.env _ c.rid c.request h0 hok
      rw [hnew]
      exact hc hrc
    · rw [(vfs_mount_root_set k c.env _ c.rid c.request h0).1]
      exact h0
  have hsplit : cs = (pre ++ [c]) ++ post := by simp [hcs]
  refine ⟨hset, ?_, ?_, ?_⟩
  · rw [hsplit, run_mounts_append]
  · rw [hsplit, rootfs_after_append]
    exact (run_mounts_root_set k _ hset post).1
  · intro o ho
    obtain ⟨h1, h2⟩ := (run_mounts_root_set k _ hset post).2 o ho
    refine ⟨h1, h2, ?_⟩
    obtain ⟨d, r, hr, rfl⟩ := run_mounts_mem k _ post o ho hset
    exact vfs_mount_resolves_under_root k d.env r d.rid d.request hr

/-- Witness for the amended C4: the sample scenario; after the first request is
answered `EOK` the root is `(7, 3, 1)` and the two later requests leave it alone. -/
theorem root_set_once_witness :
    root_assignments (run_mounts sample_consts rootfs_init demo_calls) ≤ 1 ∧
    rootfs_after sample_consts rootfs_init demo_calls =
      rootfs_after sample_consts rootfs_init
        ([] ++ [{ env := demo_env demofs slash 0 0, rid := 11, request := { arg1 := 3 } }]) :=
  have h := root_set_once sample_consts (by decide) demo_calls (by decide)
  ⟨h.1, (h.2 [] { env := demo_env demofs slash 0 0, rid := 11, request := { arg1 := 3 } }
    [{ env := demo_env demofs mnt 0 0, rid := 12, request := { arg1 := 5 } },
     { env := demo_env demofs slash 0 0, rid := 13, request := { arg1 := 6 } }]
    rfl (by decide)).2.2.1⟩

/-! ## Validation of the request -/

/-- C5. File-system name length validation: when the name is announced with a size
below 1 or above `FS_NAME_MAXLEN`, the request is answered `EINVAL`, the run makes no
registry, resolver or node-cache call and `rootfs` is unchanged; when the size lies in
`[1, FS_NAME_MAXLEN]` the check lets the run through to the registry lookup. -/
theorem name_length_validation (k : Consts) (env : Env) (rootfs : vfs_triplet_t)
    (rid : Nat) (request : ipc_call_t) (hrecv : env.name_write.accepted = true) :
    ((env.name_write.size < 1 ∨ env.name_write.size > k.FS_NAME_MAXLEN) →
      answers rid (vfs_mount k env rootfs rid request).trace = [k.EINVAL] ∧
      (∀ e ∈ (vfs_mount k env rootfs rid request).trace,
        e.is_registry = false ∧ e.is_lookup = false ∧ e.is_node_op = false) ∧
      (vfs_mount k env rootfs rid request).rootfs = rootfs) ∧
    ((1 ≤ env.name_write.size ∧ env.name_write.size ≤ k.FS_NAME_MAXLEN) →
      Event.fs_name_to_handle (fs_name env) true (fs_handle env) ∈
        (vfs_mount k env rootfs rid request).trace) := by
  constructor
  · intro hbad
    have hno : ¬ name_ok k env := fun h => h.2 hbad
    refine vfs_mount_cases k env rootfs rid request
      (fun o => answers rid o.trace = [k.EINVAL] ∧
        (∀ e ∈ o.trace, e.is_registry = false ∧ e.is_lookup = false ∧ e.is_node_op = false) ∧
        o.rootfs = rootfs)
      ?_ ?_ ?_ ?_ ?_ ?_ ?_ ?_ ?_ ?_ ?_ ?_ ?_
    · intro _
      simp [answers, Event.is_registry, Event.is_lookup, Event.is_node_op]
    · intro _ _
      simp [answers, Event.is_registry, Event.is_lookup, Event.is_node_op]
    all_goals intro h
    all_goals first
      | exact absurd h hno
      | exact absurd h.1 hno
      | exact absurd h.1.1 hno
      | exact absurd h.1.1.1 hno
      | exact absurd h.1.1.1.1 hno
  · intro hgood
    refine vfs_mount_cases k env rootfs rid request
      (fun o => Event.fs_name_to_handle (fs_name env) true (fs_handle env) ∈ o.trace)
      ?_ ?_ ?_ ?_ ?_ ?_ ?_ ?_ ?_ ?_ ?_ ?_ ?_
    · intro h
      rw [hrecv] at h
      cases h
    · intro _ hbad
      omega
    all_goals intros
    all_goals simp [trace_to_registry, trace_to_lookup_root, trace_to_root_check,
      trace_to_mount_point]

/-- Witness for C5: a name of 21 bytes is rejected with `EINVAL`, and the 6 bytes of
`"demofs"` reach the registry. -/
theorem name_length_validation_witness :
    answers 11 (vfs_mount sample_consts (demo_env (List.replicate 21 97) slash 0 0)
      rootfs_init 11 { arg1 := 3 }).trace = [sample_consts.EINVAL] ∧
    Event.fs_name_to_handle demofs true 7 ∈
      (vfs_mount sample_consts (demo_env demofs slash 0 0) rootfs_init 11 { arg1 := 3 }).trace :=
  ⟨((name_length_validation sample_consts (demo_env (List.replicate 21 97) slash 0 0)
      rootfs_init 11 { arg1 := 3 } rfl).1 (by decide)).1,
   (name_length_validation sample_consts (demo_env demofs slash 0 0)
      rootfs_init 11 { arg1 := 3 } rfl).2 (by decide)⟩

/-- C7. Unknown driver: when the name has a valid length and the registry returns 0
for it, the request is answered `ENOENT` and the run makes no resolver call, no
node-cache call, takes neither lock and leaves `rootfs` unchanged. -/
theorem unknown_driver (k : Consts) (env : Env) (rootfs : vfs_triplet_t)
    (rid : Nat) (request : ipc_call_t)
    (hrecv : env.name_write.accepted = true)
    (hname : 1 ≤ env.name_write.size ∧ env.name_write.size ≤ k.FS_NAME_MAXLEN)
    (hunknown : env.fs_name_to_handle (fs_name env) true = 0) :
    answers rid (vfs_mount k env rootfs rid request).trace = [k.ENOENT] ∧
    (∀ e ∈ (vfs_mount k env rootfs rid request).trace,
      e.is_lookup = false ∧ e.is_node_op = false ∧ e.is_lock_acquire = false ∧
      e.is_store_rootfs = false) ∧
    (vfs_mount k env rootfs rid request).rootfs = rootfs := by
  have hno : ¬ registered k env := fun h => h.2 hunknown
  refine vfs_mount_cases k env rootfs rid request
    (fun o => answers rid o.trace = [k.ENOENT] ∧
      (∀ e ∈ o.trace, e.is_lookup = false ∧ e.is_node_op = false ∧
        e.is_lock_acquire = false ∧ e.is_store_rootfs = false) ∧ o.rootfs = rootfs)
    ?_ ?_ ?_ ?_ ?_ ?_ ?_ ?_ ?_ ?_ ?_ ?_ ?_
  · intro h
    rw [hrecv] at h
    cases h
  · intro _ h
    omega
  · intro _ _
    simp [trace_to_registry, answers, Event.is_lookup, Event.is_node_op,
      Event.is_lock_acquire, Event.is_store_rootfs]
  all_goals intro h
  all_goals first
    | exact absurd h hno
    | exact absurd h.1 hno
    | exact absurd h.1.1 hno
    | exact absurd h.1.1.1 hno

/-- Witness for C7: `mount(dev=5, "unknownfs", "/mnt")` answers `ENOENT`. -/
theorem unknown_driver_witness :
    demo_registry unknownfs true = 0 ∧
    answers 11 (vfs_mount sample_consts (demo_env unknownfs mnt 0 0) demo_root 11
      { arg1 := 5 }).trace = [sample_consts.ENOENT] :=
  ⟨by decide,
   (unknown_driver sample_consts (demo_env unknownfs mnt 0 0) demo_root 11
     { arg1 := 5 } rfl (by decide) (by decide)).1⟩

/-! ## Result codes -/

/-- C8. Resolver failures are passed through verbatim: if a run makes a resolver call
(that of `lookup_root`, or the resolution of the mount point) and the call returns
`rc ≠ EOK`, the request is answered with exactly that `rc`. -/
theorem resolver_failure_verbatim (k : Consts) (env : Env) (rootfs : vfs_triplet_t)
    (rid : Nat) (request : ipc_call_t) (path : List Nat) (len : Nat)
    (altroot : Option vfs_pair_t) (rc : Int) (result : vfs_triplet_t) (size : Nat)
    (hcall : Event.vfs_lookup_internal path len altroot rc result size ∈
      (vfs_mount k env rootfs rid request).trace)
    (hrc : rc ≠ k.EOK) :
    answers rid (vfs_mount k env rootfs rid request).trace = [rc] := by
  revert hcall
  refine vfs_mount_cases k env rootfs rid request
    (fun o => Event.vfs_lookup_internal path len altroot rc result size ∈ o.trace →
      answers rid o.trace = [rc])
    ?_ ?_ ?_ ?_ ?_ ?_ ?_ ?_ ?_ ?_ ?_ ?_ ?_
  all_goals intros
  on_goal 13 => by_cases hrc1 : env.rc1 = k.EOK <;> by_cases hrc2 : env.rc2 = k.EOK
  all_goals simp_all [trace_to_registry, trace_to_lookup_root, trace_to_root_check,
    trace_to_mount_point, trace_notify, answers, reaches_root_check]

/-- Witness for C8: with the root set, `"/"` does not resolve in the sample tree and the
code `-1` of the resolver is the answer. -/
theorem resolver_failure_verbatim_witness :
    (-1 : Int) ≠ sample_consts.EOK ∧
    answers 11 (vfs_mount sample_consts (demo_env demofs slash 0 0) demo_root 11
      { arg1 := 5 }).trace = [-1] :=
  ⟨by decide,
   resolver_failure_verbatim sample_consts (demo_env demofs slash 0 0) demo_root 11
     { arg1 := 5 } slash 1 none (-1) { fs_handle := 0, dev_handle := 0, index := 0 } 0
     (by decide) (by decide)⟩

/-- C9. Notification result code: in a run that awaits the two peer notifications with
results `rc1` and `rc2`, the request is answered `rc1` if `rc1 ≠ EOK` and `rc2`
otherwise; the answer is `EOK` exactly when both are `EOK`, and when both fail the
code of the first call is reported. -/
theorem notification_result_code (k : Consts) (env : Env) (rootfs : vfs_triplet_t)
    (rid : Nat) (request : ipc_call_t) (rc1 rc2 : Int)
    (hwait1 : Event.async_wait_for 1 rc1 ∈ (vfs_mount k env rootfs rid request).trace)
    (hwait2 : Event.async_wait_for 2 rc2 ∈ (vfs_mount k env rootfs rid request).trace) :
    answers rid (vfs_mount k env rootfs rid request).trace =
      [if rc1 ≠ k.EOK then rc1 else rc2] ∧
    (answers rid (vfs_mount k env rootfs rid request).trace = [k.EOK] ↔
      rc1 = k.EOK ∧ rc2 = k.EOK) ∧
    (rc1 ≠ k.EOK → rc2 ≠ k.EOK →
      answers rid (vfs_mount k env rootfs rid request).trace = [rc1]) := by
  revert hwait1 hwait2
  refine vfs_mount_cases k env rootfs rid request
    (fun o => Event.async_wait_for 1 rc1 ∈ o.trace → Event.async_wait_for 2 rc2 ∈ o.trace →
      answers rid o.trace = [if rc1 ≠ k.EOK then rc1 else rc2] ∧
      (answers rid o.trace = [k.EOK] ↔ rc1 = k.EOK ∧ rc2 = k.EOK) ∧
      (rc1 ≠ k.EOK → rc2 ≠ k.EOK → answers rid o.trace = [rc1]))
    ?_ ?_ ?_ ?_ ?_ ?_ ?_ ?_ ?_ ?_ ?_ ?_ ?_
  all_goals intros
  on_goal 13 => by_cases hrc1 : env.rc1 = k.EOK <;> by_cases hrc2 : env.rc2 = k.EOK
  all_goals simp_all [trace_to_registry, trace_to_lookup_root, trace_to_root_check,
    trace_to_mount_point, trace_notify, answers]

/-- Witness for C9: both notifications fail, with `-5` and `-7`; the answer is `-5`. -/
theorem notification_result_code_witness :
    answers 11 (vfs_mount sample_consts (demo_env demofs mnt (-5) (-7)) demo_root 11
      { arg1 := 5 }).trace = [-5] :=
  (notification_result_code sample_consts (demo_env demofs mnt (-5) (-7)) demo_root 11
    { arg1 := 5 } (-5) (-7) (by decide) (by decide)).2.2 (by decide) (by decide)

/-! ## References held on nodes -/

/-- C10. Local rollback on every failure: in a run that does not answer the request
with `EOK`, every node has as many `vfs_node_put` as successful `vfs_node_get` (its
net reference-count change is zero), `rootfs` is unchanged, and the answer to the
request is the last call of the run, so every release precedes it. -/
theorem rollback_on_failure (k : Consts) (env : Env) (rootfs : vfs_triplet_t)
    (rid : Nat) (request : ipc_call_t)
    (hfail : k.EOK ∉ answers rid (vfs_mount k env rootfs rid request).trace) :
    (∀ n, gets n (vfs_mount k env rootfs rid request).trace =
      puts n (vfs_mount k env rootfs rid request).trace) ∧
    (∀ n, net_refs n (vfs_mount k env rootfs rid request).trace = 0) ∧
    (vfs_mount k env rootfs rid request).rootfs = rootfs ∧
    (∃ rc, rc ≠ k.EOK ∧ (vfs_mount k env rootfs rid request).trace.getLast? =
      some (.ipc_answer_0 (.request rid) rc)) := by
  revert hfail
  refine vfs_mount_cases k env rootfs rid request
    (fun o => k.EOK ∉ answers rid o.trace →
      (∀ n, gets n o.trace = puts n o.trace) ∧ (∀ n, net_refs n o.trace = 0) ∧
      o.rootfs = rootfs ∧
      (∃ rc, rc ≠ k.EOK ∧ o.trace.getLast? = some (.ipc_answer_0 (.request rid) rc)))
    ?_ ?_ ?_ ?_ ?_ ?_ ?_ ?_ ?_ ?_ ?_ ?_ ?_
  all_goals intros
  on_goal 13 => by_cases hrc1 : env.rc1 = k.EOK <;> by_cases hrc2 : env.rc2 = k.EOK
  all_goals simp_all [trace_to_registry, trace_to_lookup_root, trace_to_root_check,
    trace_to_mount_point, trace_notify, answers, net_refs, gets, puts, List.countP_cons,
    List.getLast?]
  all_goals exact fun h h2 => h h2.symm

/-- Witness for C10: with the root set, the first notification of
`mount(dev=5, "demofs", "/mnt")` fails with `-5`; both pins are dropped. -/
theorem rollback_on_failure_witness :
    sample_consts.EOK ∉ answers 11 (vfs_mount sample_consts (demo_env demofs mnt (-5) 0)
      demo_root 11 { arg1 := 5 }).trace ∧
    (∀ n, net_refs n (vfs_mount sample_consts (demo_env demofs mnt (-5) 0)
      demo_root 11 { arg1 := 5 }).trace = 0) :=
  ⟨by decide,
   (rollback_on_failure sample_consts (demo_env demofs mnt (-5) 0) demo_root 11
     { arg1 := 5 } (by decide)).2.1⟩

/-! ## A completed mount -/

/-- C11, as stated, fails: in the run `remount` the root `(7, 3, 1)` is set, both peer
notifications return `EOK`, and the mount point `"/"` resolves to `(7, 3, 1)`, which is
also the root of `"demofs"` on device 3, the file system being mounted. Nothing between
lines 171 and 201 compares the two triplets: the run performs two successful
`vfs_node_get` on that one triplet and no `vfs_node_put`, and returns holding two
references on it, not one. -/
theorem pins_of_completed_mount_counterexample :
    demo_root.fs_handle ≠ 0 ∧
    Event.async_wait_for 1 sample_consts.EOK ∈ remount.trace ∧
    Event.async_wait_for 2 sample_consts.EOK ∈ remount.trace ∧
    (mount_point remount_env).triplet = demo_root ∧
    (mounted remount_env { arg1 := 3 }).triplet = demo_root ∧
    remount.trace.filter Event.is_node_op =
      [.vfs_node_get demo_root 0 true, .vfs_node_get demo_root 0 true] ∧
    gets demo_root remount.trace = 2 ∧
    puts demo_root remount.trace = 0 ∧
    net_refs demo_root remount.trace = 2 := by
  decide

/-- C11, amended. Pins held by a completed mount: in a run under an established root
in which both peer notifications return `EOK`, the node-cache calls are exactly one
successful `vfs_node_get` of the mounted root followed by one successful
`vfs_node_get` of the mount point, and no `vfs_node_put`; every node `n` ends with one
more reference for each of the two roles it plays. When the two triplets differ the
mount holds exactly one reference on each of its two nodes; when the mount point is
the mounted root itself it holds two references on that node. -/
theorem pins_of_completed_mount (k : Consts) (env : Env) (rootfs : vfs_triplet_t)
    (rid : Nat) (request : ipc_call_t)
    (hset : rootfs.fs_handle ≠ 0)
    (hwait1 : Event.async_wait_for 1 k.EOK ∈ (vfs_mount k env rootfs rid request).trace)
    (hwait2 : Event.async_wait_for 2 k.EOK ∈ (vfs_mount k env rootfs rid request).trace) :
    (vfs_mount k env rootfs rid request).trace.filter Event.is_node_op =
      [.vfs_node_get (mounted env request).triplet (mounted env request).size true,
       .vfs_node_get (mount_point env).triplet (mount_point env).size true] ∧
    (∀ n, puts n (vfs_mount k env rootfs rid request).trace = 0) ∧
    (∀ n, gets n (vfs_mount k env rootfs rid request).trace =
      (if (mounted env request).triplet = n then 1 else 0) +
      (if (mount_point env).triplet = n then 1 else 0)) ∧
    ((mount_point env).triplet ≠ (mounted env request).triplet →
      net_refs (mount_point env).triplet (vfs_mount k env rootfs rid request).trace = 1 ∧
      net_refs (mounted env request).triplet (vfs_mount k env rootfs rid request).trace
        = 1) ∧
    ((mount_point env).triplet = (mounted env request).triplet →
      net_refs (mounted env request).triplet (vfs_mount k env rootfs rid request).trace
        = 2) := by
  revert hwait1 hwait2
  refine vfs_mount_cases k env rootfs rid request
    (fun o => Event.async_wait_for 1 k.EOK ∈ o.trace →
      Event.async_wait_for 2 k.EOK ∈ o.trace →
      o.trace.filter Event.is_node_op =
        [.vfs_node_get (mounted env request).triplet (mounted env request).size true,
         .vfs_node_get (mount_point env).triplet (mount_point env).size true] ∧
      (∀ n, puts n o.trace = 0) ∧
      (∀ n, gets n o.trace =
        (if (mounted env request).triplet = n then 1 else 0) +
        (if (mount_point env).triplet = n then 1 else 0)) ∧
      ((mount_point env).triplet ≠ (mounted env request).triplet →
        net_refs (mount_point env).triplet o.trace = 1 ∧
        net_refs (mounted env request).triplet o.trace = 1) ∧
      ((mount_point env).triplet = (mounted env request).triplet →
        net_refs (mounted env request).triplet o.trace = 2))
    ?_ ?_ ?_ ?_ ?_ ?_ ?_ ?_ ?_ ?_ ?_ ?_ ?_
  all_goals intros
  on_goal 13 => by_cases hrc1 : env.rc1 = k.EOK <;> by_cases hrc2 : env.rc2 = k.EOK
  all_goals simp_all [trace_to_registry, trace_to_lookup_root, trace_to_root_check,
    trace_to_mount_point, trace_notify, Event.is_node_op, net_refs, gets, puts,
    List.countP_cons]
  all_goals first
    | exact ⟨fun n => Nat.add_comm _ _, fun h h2 => h h2.symm⟩
    | exact fun h => absurd h.symm hrc1
    | exact fun h => absurd h.symm hrc2

/-- Witness for the amended C11: the sample mount pins `(7, 5, 1)` and `(7, 3, 9)` once each. -/
theorem pins_of_completed_mount_witness :
    demo_root.fs_handle ≠ 0 ∧
    demo_mount.trace.filter Event.is_node_op =
      [.vfs_node_get demo_mr 0 true, .vfs_node_get demo_mp 0 true] ∧
    net_refs demo_mp demo_mount.trace = 1 ∧
    net_refs demo_mr demo_mount.trace = 1 :=
  have h := pins_of_completed_mount sample_consts (demo_env demofs mnt 0 0) demo_root 12
    { arg1 := 5 } (by decide) (by decide) (by decide)
  ⟨by decide, h.1, (h.2.2.2.1 (by decide)).1, (h.2.2.2.1 (by decide)).2⟩

/-- C15. Peer notification: in a run under an established root whose first two
node-cache calls are successful `vfs_node_get` calls (both nodes are pinned), the
phone of `mp.fs_handle` is grabbed and exactly two requests are sent on it, both with
method `VFS_MOUNT`: the first with arguments `(mp.dev_handle, mp.index, 0)`, the
second with `(mounted_root.fs_handle, mounted_root.dev_handle, mounted_root.index)`;
then both results are awaited, whatever the first one is, and only then is the
request answered. -/
theorem peer_notification (k : Consts) (env : Env) (rootfs : vfs_triplet_t)
    (rid : Nat) (request : ipc_call_t)
    (hset : rootfs.fs_handle ≠ 0)
    (hpins : ((vfs_mount k env rootfs rid request).trace.filter Event.is_node_op).take 2 =
      [.vfs_node_get (mounted env request).triplet (mounted env request).size true,
       .vfs_node_get (mount_point env).triplet (mount_point env).size true]) :
    Event.vfs_grab_phone (mount_point env).triplet.fs_handle
      (env.vfs_grab_phone (mount_point env).triplet.fs_handle) ∈
      (vfs_mount k env rootfs rid request).trace ∧
    ∃ rc, (vfs_mount k env rootfs rid request).trace.filter
        (fun e => e.is_send || e.is_wait || e.is_reply) =
      [.async_send_3 1 (env.vfs_grab_phone (mount_point env).triplet.fs_handle) k.VFS_MOUNT
         (mount_point env).triplet.dev_handle (mount_point env).triplet.index 0,
       .async_send_3 2 (env.vfs_grab_phone (mount_point env).triplet.fs_handle) k.VFS_MOUNT
         (mounted env request).triplet.fs_handle (mounted env request).triplet.dev_handle
         (mounted env request).triplet.index,
       .async_wait_for 1 env.rc1,
       .async_wait_for 2 env.rc2,
       .ipc_answer_0 (.request rid) rc] := by
  revert hpins
  refine vfs_mount_cases k env rootfs rid request
    (fun o => (o.trace.filter Event.is_node_op).take 2 =
        [.vfs_node_get (mounted env request).triplet (mounted env request).size true,
         .vfs_node_get (mount_point env).triplet (mount_point env).size true] →
      Event.vfs_grab_phone (mount_point env).triplet.fs_handle
        (env.vfs_grab_phone (mount_point env).triplet.fs_handle) ∈ o.trace ∧
      ∃ rc, o.trace.filter (fun e => e.is_send || e.is_wait || e.is_reply) =
        [.async_send_3 1 (env.vfs_grab_phone (mount_point env).triplet.fs_handle)
           k.VFS_MOUNT (mount_point env).triplet.dev_handle
           (mount_point env).triplet.index 0,
         .async_send_3 2 (env.vfs_grab_phone (mount_point env).triplet.fs_handle)
           k.VFS_MOUNT (mounted env request).triplet.fs_handle
           (mounted env request).triplet.dev_handle (mounted env request).triplet.index,
         .async_wait_for 1 env.rc1,
         .async_wait_for 2 env.rc2,
         .ipc_answer_0 (.request rid) rc])
    ?_ ?_ ?_ ?_ ?_ ?_ ?_ ?_ ?_ ?_ ?_ ?_ ?_
  all_goals intros
  on_goal 13 => by_cases hrc1 : env.rc1 = k.EOK <;> by_cases hrc2 : env.rc2 = k.EOK
  all_goals simp_all [trace_to_registry, trace_to_lookup_root, trace_to_root_check,
    trace_to_mount_point, trace_notify, Event.is_node_op, Event.is_send, Event.is_wait,
    Event.is_reply]

/-- Witness for C15: in the sample mount, with the first notification failing with
`-5`, the server of file system 7 is sent `(3, 9, 0)` and `(7, 5, 1)`, and both
results are awaited before the request is answered. -/
theorem peer_notification_witness :
    Event.vfs_grab_phone 7 7 ∈
      (vfs_mount sample_consts (demo_env demofs mnt (-5) 0) demo_root 12
        { arg1 := 5 }).trace ∧
    (vfs_mount sample_consts (demo_env demofs mnt (-5) 0) demo_root 12
        { arg1 := 5 }).trace.filter (fun e => e.is_send || e.is_wait || e.is_reply) =
      [.async_send_3 1 7 sample_consts.VFS_MOUNT 3 9 0,
       .async_send_3 2 7 sample_consts.VFS_MOUNT 7 5 1,
       .async_wait_for 1 (-5),
       .async_wait_for 2 0,
       .ipc_answer_0 (.request 12) (-5)] :=
  have h := peer_notification sample_consts (demo_env demofs mnt (-5) 0) demo_root 12
    { arg1 := 5 } (by decide) (by decide)
  ⟨h.1, by decide⟩

/-- C12, as stated, fails: the sample mount (root `(7, 3, 1)` set,
`mount(dev=5, "demofs", "/mnt")`, `"/mnt"` resolving to `(7, 3, 9)`, the root of
`"demofs"` on device 5 to `(7, 5, 1)`, both notifications answering `EOK`) is answered
`EOK` and leaves a Mount Table that was empty still empty: the entry
`(7, 3, 9) -> (7, 5, 1)` is not in it. The calls of the run are listed in full; none
of them operates on a table. -/
theorem mount_table_insertion_counterexample :
    (serve_mount sample_consts (demo_env demofs mnt 0 0)
      { rootfs := demo_root, mount_table := [] } 12 { arg1 := 5 }).1.mount_table = [] ∧
    (demo_mp, demo_mr) ∉
      (serve_mount sample_consts (demo_env demofs mnt 0 0)
        { rootfs := demo_root, mount_table := [] } 12 { arg1 := 5 }).1.mount_table ∧
    answers 12 demo_mount.trace = [sample_consts.EOK] ∧
    (serve_mount sample_consts (demo_env demofs mnt 0 0)
      { rootfs := demo_root, mount_table := [] } 12 { arg1 := 5 }).2 =
      [.ipc_data_write_receive 1 6 true,
       .ipc_data_write_finalize 1 6,
       .fs_name_to_handle demofs true 7,
       .ipc_data_write_receive 2 4 true,
       .malloc 4 true,
       .ipc_data_write_finalize 2 4,
       .vfs_lookup_internal slash 1 (some { fs_handle := 7, dev_handle := 5 }) 0 demo_mr 0,
       .vfs_node_get demo_mr 0 true,
       .futex_down,
       .rwlock_write_lock,
       .vfs_lookup_internal mnt 4 none 0 demo_mp 0,
       .vfs_node_get demo_mp 0 true,
       .rwlock_write_unlock,
       .futex_up,
       .free,
       .vfs_grab_phone 7 7,
       .async_send_3 1 7 1025 3 9 0,
       .async_send_3 2 7 1025 7 5 1,
       .vfs_release_phone 7,
       .async_wait_for 1 0,
       .async_wait_for 2 0,
       .ipc_answer_0 (.request 12) 0] := by
  decide

/-- C12, amended. A completed mount is recorded by the peer, not in a table: in a run
under an established root in which both peer notifications return `EOK`, the request
is answered `EOK`; the server of the mount point has been sent the mount point
`(mp.dev_handle, mp.index, 0)` and the mounted root
`(mounted_root.fs_handle, mounted_root.dev_handle, mounted_root.index)`; the run keeps
the references it took on the two nodes (no `vfs_node_put`); and the server state is
as before: `rootfs` and the Mount Table are unchanged. -/
theorem mount_recorded_by_peer (k : Consts) (env : Env) (s : ServerState)
    (rid : Nat) (request : ipc_call_t)
    (hset : s.rootfs.fs_handle ≠ 0)
    (hwait1 : Event.async_wait_for 1 k.EOK ∈ (serve_mount k env s rid request).2)
    (hwait2 : Event.async_wait_for 2 k.EOK ∈ (serve_mount k env s rid request).2) :
    answers rid (serve_mount k env s rid request).2 = [k.EOK] ∧
    (serve_mount k env s rid request).2.filter Event.is_send =
      [.async_send_3 1 (env.vfs_grab_phone (mount_point env).triplet.fs_handle) k.VFS_MOUNT
         (mount_point env).triplet.dev_handle (mount_point env).triplet.index 0,
       .async_send_3 2 (env.vfs_grab_phone (mount_point env).triplet.fs_handle) k.VFS_MOUNT
         (mounted env request).triplet.fs_handle (mounted env request).triplet.dev_handle
         (mounted env request).triplet.index] ∧
    (serve_mount k env s rid request).2.filter Event.is_node_op =
      [.vfs_node_get (mounted env request).triplet (mounted env request).size true,
       .vfs_node_get (mount_point env).triplet (mount_point env).size true] ∧
    (serve_mount k env s rid request).1 = s := by
  obtain ⟨rootfs, table⟩ := s
  simp only [serve_mount] at hwait1 hwait2 ⊢
  revert hwait1 hwait2
  refine vfs_mount_cases k env rootfs rid request
    (fun o => Event.async_wait_for 1 k.EOK ∈ o.trace →
      Event.async_wait_for 2 k.EOK ∈ o.trace →
      answers rid o.trace = [k.EOK] ∧
      o.trace.filter Event.is_send =
        [.async_send_3 1 (env.vfs_grab_phone (mount_point env).triplet.fs_handle)
           k.VFS_MOUNT (mount_point env).triplet.dev_handle
           (mount_point env).triplet.index 0,
         .async_send_3 2 (env.vfs_grab_phone (mount_point env).triplet.fs_handle)
           k.VFS_MOUNT (mounted env request).triplet.fs_handle
           (mounted env request).triplet.dev_handle (mounted env request).triplet.index] ∧
      o.trace.filter Event.is_node_op =
        [.vfs_node_get (mounted env request).triplet (mounted env request).size true,
         .vfs_node_get (mount_point env).triplet (mount_point env).size true] ∧
      ({ rootfs := o.rootfs, mount_table := table } : ServerState) =
        { rootfs := rootfs, mount_table := table })
    ?_ ?_ ?_ ?_ ?_ ?_ ?_ ?_ ?_ ?_ ?_ ?_ ?_
  all_goals intros
  on_goal 13 => by_cases hrc1 : env.rc1 = k.EOK <;> by_cases hrc2 : env.rc2 = k.EOK
  all_goals simp_all [trace_to_registry, trace_to_lookup_root, trace_to_root_check,
    trace_to_mount_point, trace_notify, answers, Event.is_node_op, Event.is_send]

/-- Witness for the amended C12: the sample mount, starting from an empty table. -/
theorem mount_recorded_by_peer_witness :
    demo_root.fs_handle ≠ 0 ∧
    answers 12 (serve_mount sample_consts (demo_env demofs mnt 0 0)
      { rootfs := demo_root, mount_table := [] } 12 { arg1 := 5 }).2 =
      [sample_consts.EOK] ∧
    (serve_mount sample_consts (demo_env demofs mnt 0 0)
      { rootfs := demo_root, mount_table := [] } 12 { arg1 := 5 }).2.filter Event.is_send =
      [.async_send_3 1 7 sample_consts.VFS_MOUNT 3 9 0,
       .async_send_3 2 7 sample_consts.VFS_MOUNT 7 5 1] ∧
    (serve_mount sample_consts (demo_env demofs mnt 0 0)
      { rootfs := demo_root, mount_table := [] } 12 { arg1 := 5 }).1 =
      { rootfs := demo_root, mount_table := [] } :=
  have h := mount_recorded_by_peer sample_consts (demo_env demofs mnt 0 0)
    { rootfs := demo_root, mount_table := [] } 12 { arg1 := 5 }
    (by decide) (by decide) (by decide)
  ⟨by decide, h.1, h.2.1, h.2.2.2⟩

/-! ## Locks -/

/-- A condition that holds at every point of a trace holds of the locks held before
the call at any position `i`, and at the end of the trace. -/
theorem at_every_point_get (inv : Locks → Option Event → Bool) (s : Locks)
    (l : List Event) (h : at_every_point inv s l = true) (i : Nat) :
    inv (locks_after s (l.take i)) l[i]? = true := by
  induction l generalizing s i with
  | nil => simpa [at_every_point, locks_after] using h
  | cons e tr ih =>
    simp only [at_every_point, Bool.and_eq_true] at h
    cases i with
    | zero => simpa [locks_after] using h.1
    | succ j => simpa [locks_after] using ih (lock_step s e) h.2 j

/-- The two locks are nested at every point of every run. -/
theorem vfs_mount_lock_order (k : Consts) (env : Env) (rootfs : vfs_triplet_t) (rid : Nat)
    (request : ipc_call_t) :
    at_every_point lock_order_at Locks.free (vfs_mount k env rootfs rid request).trace
      = true := by
  refine vfs_mount_cases k env rootfs rid request
    (fun o => at_every_point lock_order_at Locks.free o.trace = true)
    ?_ ?_ ?_ ?_ ?_ ?_ ?_ ?_ ?_ ?_ ?_ ?_ ?_
  all_goals intros
  on_goal 13 => by_cases hrc1 : env.rc1 = k.EOK <;> by_cases hrc2 : env.rc2 = k.EOK
  all_goals simp [trace_to_registry, trace_to_lookup_root, trace_to_root_check,
    trace_to_mount_point, trace_notify, at_every_point, lock_order_at, lock_step,
    Locks.free, *]

/-- C13. Lock order: at every position `i` of the trace of every run, with `held` the
locks held after the first `i` calls: `namespace_rwlock` is held only if
`rootfs_futex` is; a `rwlock_write_lock` at position `i` is made with `rootfs_futex`
held; a `rwlock_write_unlock` at position `i` is made with `rootfs_futex` still held;
and a `futex_up` at position `i` is made with `namespace_rwlock` no longer held. The
root mutex is the outer lock. -/
theorem lock_order (k : Consts) (env : Env) (rootfs : vfs_triplet_t) (rid : Nat)
    (request : ipc_call_t) (i : Nat) :
    ((locks_after Locks.free
        ((vfs_mount k env rootfs rid request).trace.take i)).namespace_rwlock = true →
      (locks_after Locks.free
        ((vfs_mount k env rootfs rid request).trace.take i)).rootfs_futex = true) ∧
    ((vfs_mount k env rootfs rid request).trace[i]? = some .rwlock_write_lock →
      (locks_after Locks.free
        ((vfs_mount k env rootfs rid request).trace.take i)).rootfs_futex = true) ∧
    ((vfs_mount k env rootfs rid request).trace[i]? = some .rwlock_write_unlock →
      (locks_after Locks.free
        ((vfs_mount k env rootfs rid request).trace.take i)).rootfs_futex = true) ∧
    ((vfs_mount k env rootfs rid request).trace[i]? = some .futex_up →
      (locks_after Locks.free
        ((vfs_mount k env rootfs rid request).trace.take i)).namespace_rwlock = false) := by
  have h := at_every_point_get lock_order_at Locks.free _
    (vfs_mount_lock_order k env rootfs rid request) i
  generalize locks_after Locks.free ((vfs_mount k env rootfs rid request).trace.take i) = s
    at h ⊢
  generalize (vfs_mount k env rootfs rid request).trace[i]? = e at h ⊢
  obtain ⟨f, w⟩ := s
  refine ⟨?_, ?_, ?_, ?_⟩
  · intro hw
    cases f <;> cases w <;> simp_all [lock_order_at]
  · rintro rfl
    cases f <;> cases w <;> simp_all [lock_order_at]
  · rintro rfl
    cases f <;> cases w <;> simp_all [lock_order_at]
  · rintro rfl
    cases f <;> cases w <;> simp_all [lock_order_at]

/-- Witness for C13: in the sample mount the call at position 9 is
`rwlock_write_lock`, the call at position 13 is `futex_up`. -/
theorem lock_order_witness :
    demo_mount.trace[9]? = some .rwlock_write_lock ∧
    (locks_after Locks.free (demo_mount.trace.take 9)).rootfs_futex = true ∧
    demo_mount.trace[13]? = some .futex_up ∧
    (locks_after Locks.free (demo_mount.trace.take 13)).namespace_rwlock = false :=
  ⟨by decide,
   (lock_order sample_consts (demo_env demofs mnt 0 0) demo_root 12 { arg1 := 5 } 9).2.1
     (by decide),
   by decide,
   (lock_order sample_consts (demo_env demofs mnt 0 0) demo_root 12 { arg1 := 5 } 13).2.2.2
     (by decide)⟩

/-- In every run the mount point is resolved with both locks held and `lookup_root`
is called with neither. -/
theorem vfs_mount_lookup_locks (k : Consts) (env : Env) (rootfs : vfs_triplet_t)
    (rid : Nat) (request : ipc_call_t) :
    at_every_point lookup_locks_at Locks.free (vfs_mount k env rootfs rid request).trace
      = true := by
  refine vfs_mount_cases k env rootfs rid request
    (fun o => at_every_point lookup_locks_at Locks.free o.trace = true)
    ?_ ?_ ?_ ?_ ?_ ?_ ?_ ?_ ?_ ?_ ?_ ?_ ?_
  all_goals intros
  on_goal 13 => by_cases hrc1 : env.rc1 = k.EOK <;> by_cases hrc2 : env.rc2 = k.EOK
  all_goals simp [trace_to_registry, trace_to_lookup_root, trace_to_root_check,
    trace_to_mount_point, trace_notify, at_every_point, lookup_locks_at, lock_step,
    Locks.free, *]

/-- C14, as stated, fails: in the sample mount the call at position 6 is the resolver
call made through `lookup_root` (path `"/"`, alternate root `(7, 5)`), and
`namespace_rwlock` is not held when it is made: no lock has been taken yet. -/
theorem resolver_under_lock_counterexample :
    demo_mount.trace[6]? =
      some (.vfs_lookup_internal slash 1 (some { fs_handle := 7, dev_handle := 5 })
        sample_consts.EOK demo_mr 0) ∧
    (locks_after Locks.free (demo_mount.trace.take 6)).namespace_rwlock = false ∧
    demo_mount.trace.take 6 =
      [.ipc_data_write_receive 1 6 true, .ipc_data_write_finalize 1 6,
       .fs_name_to_handle demofs true 7, .ipc_data_write_receive 2 4 true,
       .malloc 4 true, .ipc_data_write_finalize 2 4] := by
  decide

/-- C14, amended. In the trace of every run, a resolver call that resolves the mount
point (`vfs_lookup_internal` with no alternate root) is made while `namespace_rwlock`
is held in write mode, inside `rootfs_futex`; the resolver call made through
`lookup_root` (with an alternate root) is made with neither lock held. -/
theorem resolver_under_lock (k : Consts) (env : Env) (rootfs : vfs_triplet_t)
    (rid : Nat) (request : ipc_call_t) (i : Nat) (path : List Nat) (len : Nat)
    (altroot : Option vfs_pair_t) (rc : Int) (result : vfs_triplet_t) (size : Nat)
    (hcall : (vfs_mount k env rootfs rid request).trace[i]? =
      some (.vfs_lookup_internal path len altroot rc result size)) :
    (altroot = none →
      locks_after Locks.free ((vfs_mount k env rootfs rid request).trace.take i) =
        { rootfs_futex := true, namespace_rwlock := true }) ∧
    (altroot ≠ none →
      locks_after Locks.free ((vfs_mount k env rootfs rid request).trace.take i) =
        Locks.free) := by
  have h := at_every_point_get lookup_locks_at Locks.free _
    (vfs_mount_lookup_locks k env rootfs rid request) i
  rw [hcall] at h
  generalize locks_after Locks.free ((vfs_mount k env rootfs rid request).trace.take i) = s
    at h ⊢
  obtain ⟨f, w⟩ := s
  cases altroot with
  | none => simpa [lookup_locks_at] using h
  | some a => simpa [lookup_locks_at, Locks.free] using h

/-- Witness for the amended C14: in the sample mount the call at position 10 resolves
`"/mnt"` from the global root, with both locks held. -/
theorem resolver_under_lock_witness :
    demo_mount.trace[10]? =
      some (.vfs_lookup_internal mnt 4 none sample_consts.EOK demo_mp 0) ∧
    locks_after Locks.free (demo_mount.trace.take 10) =
      { rootfs_futex := true, namespace_rwlock := true } :=
  ⟨by decide,
   (resolver_under_lock sample_consts (demo_env demofs mnt 0 0) demo_root 12 { arg1 := 5 }
     10 mnt 4 none sample_consts.EOK demo_mp 0 (by decide)).1 rfl⟩

/-- In every run no lock is held when a notification is sent or awaited, nor when the
run ends. -/
theorem vfs_mount_notify_unlocked (k : Consts) (env : Env) (rootfs : vfs_triplet_t)
    (rid : Nat) (request : ipc_call_t) :
    at_every_point notify_unlocked_at Locks.free (vfs_mount k env rootfs rid request).trace
      = true := by
  refine vfs_mount_cases k env rootfs rid request
    (fun o => at_every_point notify_unlocked_at Locks.free o.trace = true)
    ?_ ?_ ?_ ?_ ?_ ?_ ?_ ?_ ?_ ?_ ?_ ?_ ?_
  all_goals intros
  on_goal 13 => by_cases hrc1 : env.rc1 = k.EOK <;> by_cases hrc2 : env.rc2 = k.EOK
  all_goals simp [trace_to_registry, trace_to_lookup_root, trace_to_root_check,
    trace_to_mount_point, trace_notify, at_every_point, notify_unlocked_at, lock_step,
    Locks.free, *]

/-- The lock operations of a run, in order: none, or `rootfs_futex` taken and
released, or `namespace_rwlock` taken and released inside `rootfs_futex`. -/
theorem vfs_mount_lock_ops (k : Consts) (env : Env) (rootfs : vfs_triplet_t)
    (rid : Nat) (request : ipc_call_t) :
    (vfs_mount k env rootfs rid request).trace.filter Event.is_lock_op = [] ∨
    (vfs_mount k env rootfs rid request).trace.filter Event.is_lock_op =
      [.futex_down, .futex_up] ∨
    (vfs_mount k env rootfs rid request).trace.filter Event.is_lock_op =
      [.futex_down, .rwlock_write_lock, .rwlock_write_unlock, .futex_up] := by
  refine vfs_mount_cases k env rootfs rid request
    (fun o => o.trace.filter Event.is_lock_op = [] ∨
      o.trace.filter Event.is_lock_op = [.futex_down, .futex_up] ∨
      o.trace.filter Event.is_lock_op =
        [.futex_down, .rwlock_write_lock, .rwlock_write_unlock, .futex_up])
    ?_ ?_ ?_ ?_ ?_ ?_ ?_ ?_ ?_ ?_ ?_ ?_ ?_
  all_goals intros
  on_goal 13 => by_cases hrc1 : env.rc1 = k.EOK <;> by_cases hrc2 : env.rc2 = k.EOK
  all_goals simp [trace_to_registry, trace_to_lookup_root, trace_to_root_check,
    trace_to_mount_point, trace_notify, Event.is_lock_op, *]

/-- Counting an event among those that pass a filter it passes itself. -/
theorem count_filter_self (p : Event → Bool) (e : Event) (he : p e = true)
    (l : List Event) : (l.filter p).count e = l.count e := by
  induction l with
  | nil => rfl
  | cons a l ih =>
    by_cases ha : p a = true
    · simp [List.filter_cons, ha, List.count_cons, ih]
    · have hne : (a == e) = false := by
        apply beq_false_of_ne
        rintro rfl
        exact ha he
      simp [List.filter_cons, ha, List.count_cons, ih, hne]

/-- C17. Lock balance: in every run the number of `futex_down` equals the number of
`futex_up` and the number of `rwlock_write_lock` equals the number of
`rwlock_write_unlock`, each at most one; the lock operations are, in order, none, or
`down, up`, or `down, lock, unlock, up`; no lock is held when the run ends; and a
peer notification sent (`async_send_3`) or awaited (`async_wait_for`) at any position
`i` is made with neither lock held. -/
theorem lock_balance (k : Consts) (env : Env) (rootfs : vfs_triplet_t) (rid : Nat)
    (request : ipc_call_t) (i : Nat) :
    (vfs_mount k env rootfs rid request).trace.count .futex_down =
      (vfs_mount k env rootfs rid request).trace.count .futex_up ∧
    (vfs_mount k env rootfs rid request).trace.count .futex_down ≤ 1 ∧
    (vfs_mount k env rootfs rid request).trace.count .rwlock_write_lock =
      (vfs_mount k env rootfs rid request).trace.count .rwlock_write_unlock ∧
    (vfs_mount k env rootfs rid request).trace.count .rwlock_write_lock ≤ 1 ∧
    ((vfs_mount k env rootfs rid request).trace.filter Event.is_lock_op = [] ∨
      (vfs_mount k env rootfs rid request).trace.filter Event.is_lock_op =
        [.futex_down, .futex_up] ∨
      (vfs_mount k env rootfs rid request).trace.filter Event.is_lock_op =
        [.futex_down, .rwlock_write_lock, .rwlock_write_unlock, .futex_up]) ∧
    locks_after Locks.free (vfs_mount k env rootfs rid request).trace = Locks.free ∧
    (∀ e, (vfs_mount k env rootfs rid request).trace[i]? = some e →
      e.is_send = true ∨ e.is_wait = true →
      locks_after Locks.free ((vfs_mount k env rootfs rid request).trace.take i) =
        Locks.free) := by
  have hops := vfs_mount_lock_ops k env rootfs rid request
  have hun := vfs_mount_notify_unlocked k env rootfs rid request
  have c1 := count_filter_self Event.is_lock_op .futex_down rfl
    (vfs_mount k env rootfs rid request).trace
  have c2 := count_filter_self Event.is_lock_op .futex_up rfl
    (vfs_mount k env rootfs rid request).trace
  have c3 := count_filter_self Event.is_lock_op .rwlock_write_lock rfl
    (vfs_mount k env rootfs rid request).trace
  have c4 := count_filter_self Event.is_lock_op .rwlock_write_unlock rfl
    (vfs_mount k env rootfs rid request).trace
  refine ⟨?_, ?_, ?_, ?_, hops, ?_, ?_⟩
  · rw [← c1, ← c2]
    rcases hops with h | h | h <;> rw [h] <;> decide
  · rw [← c1]
    rcases hops with h | h | h <;> rw [h] <;> decide
  · rw [← c3, ← c4]
    rcases hops with h | h | h <;> rw [h] <;> decide
  · rw [← c3]
    rcases hops with h | h | h <;> rw [h] <;> decide
  · have h := at_every_point_get notify_unlocked_at Locks.free _ hun
      (vfs_mount k env rootfs rid request).trace.length
    simp only [List.take_length, List.getElem?_length] at h
    generalize locks_after Locks.free (vfs_mount k env rootfs rid request).trace = s at h ⊢
    obtain ⟨f, w⟩ := s
    simpa [notify_unlocked_at, Locks.free] using h
  · intro e he hsw
    have h := at_every_point_get notify_unlocked_at Locks.free _ hun i
    rw [he] at h
    generalize locks_after Locks.free ((vfs_mount k env rootfs rid request).trace.take i)
      = s at h ⊢
    obtain ⟨f, w⟩ := s
    cases e <;> simp_all [notify_unlocked_at, Locks.free, Event.is_send, Event.is_wait]

/-- Witness for C17: in the sample mount the call at position 19 awaits the first
notification, with no lock held. -/
theorem lock_balance_witness :
    demo_mount.trace[19]? = some (.async_wait_for 1 0) ∧
    locks_after Locks.free (demo_mount.trace.take 19) = Locks.free ∧
    demo_mount.trace.count .futex_down = demo_mount.trace.count .futex_up :=
  ⟨by decide,
   (lock_balance sample_consts (demo_env demofs mnt 0 0) demo_root 12 { arg1 := 5 }
     19).2.2.2.2.2.2 (.async_wait_for 1 0) (by decide) (Or.inr rfl),
   (lock_balance sample_consts (demo_env demofs mnt 0 0) demo_root 12 { arg1 := 5 } 19).1⟩

/-! ## The answer to the request -/

/-- C16. Exactly one reply: whatever the external calls return, the run of
`vfs_mount` (a total function: every run ends) answers the request `rid` exactly
once, and that answer is the last call of the run. -/
theorem exactly_one_reply (k : Consts) (env : Env) (rootfs : vfs_triplet_t) (rid : Nat)
    (request : ipc_call_t) :
    (answers rid (vfs_mount k env rootfs rid request).trace).length = 1 ∧
    ((vfs_mount k env rootfs rid request).trace.filter Event.is_reply).length = 1 ∧
    ∃ rc, answers rid (vfs_mount k env rootfs rid request).trace = [rc] ∧
      (vfs_mount k env rootfs rid request).trace.filter Event.is_reply =
        [.ipc_answer_0 (.request rid) rc] ∧
      (vfs_mount k env rootfs rid request).trace.getLast? =
        some (.ipc_answer_0 (.request rid) rc) := by
  refine vfs_mount_cases k env rootfs rid request
    (fun o => (answers rid o.trace).length = 1 ∧
      (o.trace.filter Event.is_reply).length = 1 ∧
      ∃ rc, answers rid o.trace = [rc] ∧
        o.trace.filter Event.is_reply = [.ipc_answer_0 (.request rid) rc] ∧
        o.trace.getLast? = some (.ipc_answer_0 (.request rid) rc))
    ?_ ?_ ?_ ?_ ?_ ?_ ?_ ?_ ?_ ?_ ?_ ?_ ?_
  all_goals intros
  on_goal 13 => by_cases hrc1 : env.rc1 = k.EOK <;> by_cases hrc2 : env.rc2 = k.EOK
  all_goals simp [trace_to_registry, trace_to_lookup_root, trace_to_root_check,
    trace_to_mount_point, trace_notify, answers, Event.is_reply, List.getLast?, *]

end Vfs
